import Mathlib

/-!
# Verification of the mvfst server connection core against its specification

This file gives a shallow embedding, in Lean 4, of the parts of the mvfst
QUIC server connection core that the checked claims are about:

* `quic/state/QuicStateFunctions.cpp` — RTT estimation (`updateRtt`) and
  ACK scheduling (`updateAckSendStateOnRecvPacket`,
  `updateAckStateOnAckTimeout`);
* `quic/state/QuicStreamManager.cpp` — peer stream opening
  (`openPeerStreamIfNotClosed`, `getOrCreatePeerStream`, `getStream`) and
  closed-stream removal with stream-limit windowing (`removeClosedStream`);
* `quic/server/state/ServerStateMachine.cpp` — handshake progression
  (`updateHandshakeState`, `processClientInitialParams`), connection
  migration (`onConnectionMigration` and the peer-address guard of
  `onServerReadDataFromOpen`), and self connection-id allocation
  (`createAndAddNewSelfConnId`);
* `quic/common/TransportKnobs.cpp` — `parseTransportKnobs`.

Times (`std::chrono::microseconds` / `milliseconds`) are embedded as `Nat`
(the values handled are non-negative; C++ integer division on non-negative
values coincides with `Nat` division).  `folly::Optional` becomes `Option`,
thrown `QuicTransportException`s become `Except QuicError`, and fields that
are pure observability sinks (qLogger, stats callbacks, VLOG) are dropped,
as are `unique_ptr` wrappers: a cipher slot is a `Bool` saying whether the
cipher is installed.  Constants that live in headers not part of the
reviewed sources are introduced with a `Modelled from the spec:` comment.
-/

namespace Mvfst

/-- Transport error codes surfaced to the wire (the subset the claims use). -/
inductive TransportErrorCode where
  | NO_ERROR
  | TRANSPORT_PARAMETER_ERROR
  | CRYPTO_ERROR
  | PROTOCOL_VIOLATION
  | STREAM_STATE_ERROR
  | STREAM_LIMIT_ERROR
  | INVALID_MIGRATION
  deriving DecidableEq, Repr

/-- A thrown `QuicTransportException`: error code plus diagnostic message. -/
structure QuicError where
  code : TransportErrorCode
  msg : String
  deriving DecidableEq, Repr

/-- Local error codes returned (not sent on the wire) by stream-creation
paths, from `LocalErrorCode` as used in `QuicStreamManager.cpp`. -/
inductive LocalErrorCode where
  | NO_ERROR
  | CREATING_EXISTING_STREAM
  | STREAM_LIMIT_EXCEEDED
  deriving DecidableEq, Repr

/-! ## Loss state and `updateRtt` (QuicStateFunctions.cpp lines 41-74) -/

/-- Modelled from the spec: `kDefaultMinRtt` is the sentinel initial value of
`mrtt` before any sample (in the source it lives in a header outside the
reviewed files; `std::chrono::microseconds::max()` semantics, i.e. a value
larger than every real sample).  We use `2^63 - 1` microseconds. -/
def kDefaultMinRtt : Nat := 2 ^ 63 - 1

/-- Modelled from the spec: the spec fixes the IIR gains α = 1/8 and β = 1/4,
so the divisors `kRttAlpha = 8` and `kRttBeta = 4` (header constants). -/
def kRttAlpha : Nat := 8

/-- Modelled from the spec: see `kRttAlpha`. -/
def kRttBeta : Nat := 4

/-- The per-connection loss/RTT state (the fields `updateRtt` reads and
writes), microseconds as `Nat`. -/
structure LossState where
  srtt : Nat
  lrtt : Nat
  rttvar : Nat
  mrtt : Nat
  maxAckDelay : Nat
  deriving DecidableEq, Repr

/-- `updateRtt` from `QuicStateFunctions.cpp` (lines 41-74).  `conn.qLogger`
publication is dropped.  `timeMin`/`timeMax` are `Nat.min`/`Nat.max`. -/
def updateRtt (ls : LossState) (rttSample ackDelay : Nat) : LossState :=
  let minRtt := Nat.min ls.mrtt rttSample
  let maxAckDelay := Nat.max ls.maxAckDelay ackDelay
  let shouldUseAckDelay := rttSample > ackDelay &&
      (rttSample > minRtt + ackDelay || ls.mrtt == kDefaultMinRtt)
  let rttSample' := if shouldUseAckDelay then rttSample - ackDelay else rttSample
  let ls := { ls with maxAckDelay := maxAckDelay, mrtt := minRtt, lrtt := rttSample' }
  if ls.srtt = 0 then
    { ls with srtt := rttSample', rttvar := rttSample' / 2 }
  else
    { ls with
      rttvar := ls.rttvar * (kRttBeta - 1) / kRttBeta +
        (if ls.srtt > rttSample' then ls.srtt - rttSample'
         else rttSample' - ls.srtt) / kRttBeta
      srtt := ls.srtt * (kRttAlpha - 1) / kRttAlpha + rttSample' / kRttAlpha }

/-- The ack-delay-adjusted sample that `updateRtt` feeds into the IIR
filters: `ackDelay` is subtracted exactly when the source's
`shouldUseAckDelay` condition holds. -/
def adjustedRttSample (ls : LossState) (rttSample ackDelay : Nat) : Nat :=
  if rttSample > ackDelay &&
      (rttSample > Nat.min ls.mrtt rttSample + ackDelay || ls.mrtt == kDefaultMinRtt) then
    rttSample - ackDelay
  else rttSample

/-! ## Ack state (per packet-number space) and ACK scheduling

From `QuicStateFunctions.cpp` lines 76-162 and the `AckState` data model of
the spec (section 3).  Fields of `AckState` that only the unclaimed
functions touch (received-packet range set, receive times) are omitted. -/

/-- Modelled from the spec: `kNonRtxRxPacketsPendingBeforeAck`, the default
threshold used before any retransmittable packet is counted (header
constant; its value is immaterial to the claims). -/
def kNonRtxRxPacketsPendingBeforeAck : Nat := 20

/-- Per packet-number-space ack state (subset of `AckState`). -/
structure AckState where
  nextPacketNum : Nat
  largestReceivedPacketNum : Option Nat
  largestReceivedAtLastCloseSent : Option Nat
  numRxPacketsRecvd : Nat
  numNonRxPacketsRecvd : Nat
  needsToSendAckImmediately : Bool
  tolerance : Option Nat
  ignoreReorder : Bool
  largestAckScheduled : Option Nat
  deriving DecidableEq, Repr

/-- The triplet of ack states, one per packet-number space. -/
structure AckStates where
  initialAckState : AckState
  handshakeAckState : AckState
  appDataAckState : AckState
  deriving DecidableEq, Repr

/-- Simple frames queued for sending (only the one the claims need). -/
inductive QuicSimpleFrame where
  | handshakeDoneFrame
  deriving DecidableEq, Repr

/-- The pending-events flags of the connection that the embedded functions
touch. -/
structure PendingEvents where
  scheduleAckTimeout : Bool
  pathChallenge : Option Nat
  schedulePathValidationTimeout : Bool
  closeTransport : Bool
  cancelPingTimeout : Bool
  frames : List QuicSimpleFrame
  deriving DecidableEq, Repr

/-- The transport settings the embedded functions read. -/
structure TransportSettingsModel where
  rxPacketsBeforeAckInitThreshold : Nat
  rxPacketsBeforeAckAfterInit : Nat
  rxPacketsBeforeAckBeforeInit : Nat
  advertisedInitialMaxStreamsBidi : Nat
  advertisedInitialMaxStreamsUni : Nat
  disableMigration : Bool
  canIgnorePathMTU : Bool
  d6dEnabled : Bool
  deriving DecidableEq, Repr

/-! ## Socket addresses and migration state -/

/-- A peer socket address: family flag, address bits, port.  For IPv4 the
address bits are the 32-bit host-order address. -/
structure SocketAddress where
  isV4 : Bool
  ip : Nat
  port : Nat
  deriving DecidableEq, Repr

/-- Saved congestion/RTT state keyed to a peer address
(`CongestionAndRttState` in `ServerStateMachine.h`; the congestion
controller is an owned object, embedded as an identity token). -/
structure CongestionAndRttState where
  peerAddress : SocketAddress
  recordTime : Nat
  congestionController : Option Nat
  srtt : Nat
  lrtt : Nat
  rttvar : Nat
  mrtt : Nat
  deriving DecidableEq, Repr

/-- The migration tracker. -/
structure MigrationState where
  numMigrations : Nat
  previousPeerAddresses : List SocketAddress
  lastCongestionAndRtt : Option CongestionAndRttState
  deriving DecidableEq, Repr

/-- Modelled from the spec: `kMaxNumMigrationsAllowed` is a header constant;
the migration theorems hold for any value, 6 is used to make the model
executable. -/
def kMaxNumMigrationsAllowed : Nat := 6

/-- Modelled from the spec: `kTimeToRetainLastCongestionAndRttState`
(header constant), microseconds; the exact value is immaterial to the
claims. -/
def kTimeToRetainLastCongestionAndRttState : Nat := 60000000

/-! ## Stream identifiers and the stream manager

`QuicStreamUtilities.h` is not among the reviewed sources; its stream-id
parity helpers are modelled from the spec (section 4.4: "Stream ID parity
is deterministic: low two bits encode (client/server, bi/uni) ... The
stride between IDs in the same quartet is 4"). -/

inductive QuicNodeType where
  | Client
  | Server
  deriving DecidableEq, Repr

/-- Modelled from the spec: low bit 0 means client-initiated. -/
def isClientStream (streamId : Nat) : Bool := streamId % 2 == 0

/-- Modelled from the spec: low bit 1 means server-initiated. -/
def isServerStream (streamId : Nat) : Bool := streamId % 2 == 1

/-- Modelled from the spec: second-lowest bit set means unidirectional. -/
def isUnidirectionalStream (streamId : Nat) : Bool := streamId % 4 ≥ 2

/-- Modelled from the spec: a stream is local to a node iff it was
initiated by that node's role. -/
def isLocalStream (nodeType : QuicNodeType) (streamId : Nat) : Bool :=
  match nodeType with
  | .Client => isClientStream streamId
  | .Server => isServerStream streamId

/-- Modelled from the spec: the complement of `isLocalStream`. -/
def isRemoteStream (nodeType : QuicNodeType) (streamId : Nat) : Bool :=
  match nodeType with
  | .Client => isServerStream streamId
  | .Server => isClientStream streamId

/-- Modelled from the spec: `detail::kStreamIncrement` — the stride between
stream ids of one quartet is 4. -/
def kStreamIncrement : Nat := 4

/-- Modelled from the spec: `kMaxMaxStreams`, the protocol cap on a
MAX_STREAMS value (2^60 per QUIC). -/
def kMaxMaxStreams : Nat := 2 ^ 60

/-- Modelled from the spec: the default priority level of a newly created
stream (`kDefaultPriority.level`, header constant; value immaterial). -/
def kDefaultPriorityLevel : Nat := 3

/-- Unsigned 64-bit subtraction (the C++ `uint64_t` wrap-around). -/
def usub64 (a b : Nat) : Nat := (a + 2 ^ 64 - b % 2 ^ 64) % 2 ^ 64

/-- The stream-manager state: the fields touched by the embedded
operations.  The auxiliary per-stream index sets (readable / peekable /
writable / writableDSR / loss / blocked / deliverable / tx / windowUpdates /
stopSending / flowControlUpdated), the per-stream state records' contents,
and the observability callbacks are omitted: no claim mentions them.  A
stream's state record is embedded as its id's membership in `streams`. -/
structure QuicStreamManagerState where
  nodeType : QuicNodeType
  streams : List Nat
  streamPriorityLevels : List (Nat × Nat)
  openBidirectionalLocalStreams : List Nat
  openUnidirectionalLocalStreams : List Nat
  openBidirectionalPeerStreams : List Nat
  openUnidirectionalPeerStreams : List Nat
  newPeerStreams : List Nat
  nextAcceptableLocalBidirectionalStreamId : Nat
  nextAcceptableLocalUnidirectionalStreamId : Nat
  nextAcceptablePeerBidirectionalStreamId : Nat
  nextAcceptablePeerUnidirectionalStreamId : Nat
  maxLocalBidirectionalStreamId : Nat
  maxLocalUnidirectionalStreamId : Nat
  maxRemoteBidirectionalStreamId : Nat
  maxRemoteUnidirectionalStreamId : Nat
  initialLocalBidirectionalStreamId : Nat
  initialLocalUnidirectionalStreamId : Nat
  initialRemoteBidirectionalStreamId : Nat
  initialRemoteUnidirectionalStreamId : Nat
  maxLocalBidirectionalStreamIdIncreased : Bool
  maxLocalUnidirectionalStreamIdIncreased : Bool
  remoteBidirectionalStreamLimitUpdate : Option Nat
  remoteUnidirectionalStreamLimitUpdate : Option Nat
  streamLimitWindowingFraction : Nat
  isAppIdle : Bool
  numControlStreams : Nat
  transportSettings : TransportSettingsModel
  deriving DecidableEq, Repr

/-! ## Stream manager operations (QuicStreamManager.cpp) -/

/-- `isStreamUnopened` (QuicStreamManager.cpp lines 58-62). -/
def isStreamUnopened (streamId nextAcceptableStreamId : Nat) : Bool :=
  streamId ≥ nextAcceptableStreamId

/-- Structural helper for `openedStreamIds`: the while loop with explicit
fuel.  The loop advances `start` by 4 each iteration and stops once
`start > streamId`, so `streamId + 1 - start` bounds its iteration count. -/
def openedStreamIdsGo (streamId : Nat) : Nat → Nat → List Nat
  | 0, _ => []
  | fuel + 1, start =>
    if start ≤ streamId then
      start :: openedStreamIdsGo streamId fuel (start + kStreamIncrement)
    else []

/-- The stream ids opened by the while loop of `openPeerStreamIfNotClosed` /
`openLocalStreamIfNotClosed`: `start`, `start + 4`, ... up to `streamId`
inclusive (see `openedStreamIds_unfold` for the loop-shaped equation). -/
def openedStreamIds (start streamId : Nat) : List Nat :=
  openedStreamIdsGo streamId (streamId + 1 - start) start

/-- `openPeerStreamIfNotClosed` (QuicStreamManager.cpp lines 66-93),
explicit-state version of the by-reference C++ signature: returns the error
code together with the updated `(openStreams, nextAcceptableStreamId,
newStreams)`. -/
def openPeerStreamIfNotClosed (streamId : Nat) (openStreams : List Nat)
    (nextAcceptableStreamId maxStreamId : Nat) (newStreams : List Nat) :
    LocalErrorCode × List Nat × Nat × List Nat :=
  if streamId < nextAcceptableStreamId then
    (.CREATING_EXISTING_STREAM, openStreams, nextAcceptableStreamId, newStreams)
  else if streamId ≥ maxStreamId then
    (.STREAM_LIMIT_EXCEEDED, openStreams, nextAcceptableStreamId, newStreams)
  else
    let newIds := openedStreamIds nextAcceptableStreamId streamId
    (.NO_ERROR, openStreams ++ newIds, streamId + kStreamIncrement, newStreams ++ newIds)

/-- `openLocalStreamIfNotClosed` (QuicStreamManager.cpp lines 95-119). -/
def openLocalStreamIfNotClosed (streamId : Nat) (openStreams : List Nat)
    (nextAcceptableStreamId maxStreamId : Nat) :
    LocalErrorCode × List Nat × Nat :=
  if streamId < nextAcceptableStreamId then
    (.CREATING_EXISTING_STREAM, openStreams, nextAcceptableStreamId)
  else if streamId ≥ maxStreamId then
    (.STREAM_LIMIT_EXCEEDED, openStreams, nextAcceptableStreamId)
  else
    let newIds := openedStreamIds nextAcceptableStreamId streamId
    (.NO_ERROR, openStreams ++ newIds, streamId + kStreamIncrement)

/-- `addToStreamPriorityMap` (QuicStreamManager.cpp lines 625-646); the
"verify inserted item" re-read always succeeds in this embedding, and the
observer notification is dropped. -/
def addToStreamPriorityMap (m : QuicStreamManagerState) (streamId level : Nat) :
    Except QuicError QuicStreamManagerState :=
  if (m.streamPriorityLevels.map Prod.fst).contains streamId then
    .error ⟨.STREAM_STATE_ERROR, "Attempted to add stream already in priority map"⟩
  else
    .ok { m with streamPriorityLevels := m.streamPriorityLevels ++ [(streamId, level)] }

/-- Modelled from the spec: `hasNonCtrlStreams` (header helper) — the
connection is app-idle iff there are no non-control streams
(spec section 4.4). -/
def hasNonCtrlStreams (m : QuicStreamManagerState) : Bool :=
  m.streams.length > m.numControlStreams

/-- `updateAppIdleState` (QuicStreamManager.cpp lines 566-579); the
congestion-controller notification is dropped. -/
def updateAppIdleState (m : QuicStreamManagerState) : QuicStreamManagerState :=
  let currentNonCtrlStreams := hasNonCtrlStreams m
  if m.isAppIdle && !currentNonCtrlStreams then m
  else if !m.isAppIdle && currentNonCtrlStreams then m
  else { m with isAppIdle := !currentNonCtrlStreams }

/-- `getOrCreateOpenedLocalStream` (QuicStreamManager.cpp lines 269-289). -/
def getOrCreateOpenedLocalStream (m : QuicStreamManagerState) (streamId : Nat) :
    Except QuicError (Option Nat × QuicStreamManagerState) :=
  let openLocalStreams := if isUnidirectionalStream streamId
    then m.openUnidirectionalLocalStreams else m.openBidirectionalLocalStreams
  if openLocalStreams.contains streamId then
    if m.streams.contains streamId then
      .error ⟨.STREAM_STATE_ERROR, "Creating an active stream"⟩
    else do
      let m := { m with streams := m.streams ++ [streamId] }
      let m ← addToStreamPriorityMap m streamId kDefaultPriorityLevel
      .ok (some streamId, m)
  else .ok (none, m)

/-- `getOrCreatePeerStream` (QuicStreamManager.cpp lines 332-403). -/
def getOrCreatePeerStream (m : QuicStreamManagerState) (streamId : Nat) :
    Except QuicError (Option Nat × QuicStreamManagerState) :=
  if m.nodeType == .Client && isClientStream streamId then
    .error ⟨.STREAM_STATE_ERROR, "Attempted getting client peer stream on client"⟩
  else if m.nodeType == .Server && isServerStream streamId then
    .error ⟨.STREAM_STATE_ERROR, "Attempted getting server peer stream on server"⟩
  else if !isClientStream streamId && !isServerStream streamId then
    .error ⟨.STREAM_STATE_ERROR, "Invalid stream"⟩
  else if m.streams.contains streamId then
    .ok (some streamId, m)
  else
    let openPeerStreams := if isUnidirectionalStream streamId
      then m.openUnidirectionalPeerStreams else m.openBidirectionalPeerStreams
    if openPeerStreams.contains streamId then do
      let m := { m with streams := m.streams ++ [streamId] }
      let m ← addToStreamPriorityMap m streamId kDefaultPriorityLevel
      .ok (some streamId, m)
    else
      let nextAcceptableStreamId := if isUnidirectionalStream streamId
        then m.nextAcceptablePeerUnidirectionalStreamId
        else m.nextAcceptablePeerBidirectionalStreamId
      let maxStreamId := if isUnidirectionalStream streamId
        then m.maxRemoteUnidirectionalStreamId else m.maxRemoteBidirectionalStreamId
      let r := openPeerStreamIfNotClosed streamId openPeerStreams
        nextAcceptableStreamId maxStreamId m.newPeerStreams
      let m := if isUnidirectionalStream streamId then
          { m with openUnidirectionalPeerStreams := r.2.1,
                   nextAcceptablePeerUnidirectionalStreamId := r.2.2.1,
                   newPeerStreams := r.2.2.2 }
        else
          { m with openBidirectionalPeerStreams := r.2.1,
                   nextAcceptablePeerBidirectionalStreamId := r.2.2.1,
                   newPeerStreams := r.2.2.2 }
      match r.1 with
      | .CREATING_EXISTING_STREAM => .ok (none, m)
      | .STREAM_LIMIT_EXCEEDED =>
          .error ⟨.STREAM_LIMIT_ERROR, "Exceeded stream limit."⟩
      | .NO_ERROR => do
          let m := { m with streams := m.streams ++ [streamId] }
          let m ← addToStreamPriorityMap m streamId kDefaultPriorityLevel
          .ok (some streamId, m)

/-- `getStream` (QuicStreamManager.cpp lines 291-312). -/
def getStream (m : QuicStreamManagerState) (streamId : Nat) :
    Except QuicError (Option Nat × QuicStreamManagerState) :=
  if isRemoteStream m.nodeType streamId then do
    let (s, m) ← getOrCreatePeerStream m streamId
    .ok (s, updateAppIdleState m)
  else if m.streams.contains streamId then
    .ok (some streamId, m)
  else do
    let (s, m) ← getOrCreateOpenedLocalStream m streamId
    let nextAcceptableStreamId := if isUnidirectionalStream streamId
      then m.nextAcceptableLocalUnidirectionalStreamId
      else m.nextAcceptableLocalBidirectionalStreamId
    if !s.isSome && isStreamUnopened streamId nextAcceptableStreamId then
      .error ⟨.STREAM_STATE_ERROR, "Trying to get unopened local stream"⟩
    else
      .ok (s, updateAppIdleState m)

/-- `setMaxRemoteBidirectionalStreamsInternal` (QuicStreamManager.cpp
lines 186-199). -/
def setMaxRemoteBidirectionalStreamsInternal (m : QuicStreamManagerState)
    (maxStreams : Nat) (force : Bool) : Except QuicError QuicStreamManagerState :=
  if maxStreams > kMaxMaxStreams then
    .error ⟨.STREAM_LIMIT_ERROR, "Attempt to set maxStreams beyond the max allowed."⟩
  else
    let maxStreamId := maxStreams * kStreamIncrement + m.initialRemoteBidirectionalStreamId
    if force || maxStreamId > m.maxRemoteBidirectionalStreamId then
      .ok { m with maxRemoteBidirectionalStreamId := maxStreamId }
    else .ok m

/-- `setMaxRemoteUnidirectionalStreamsInternal` (QuicStreamManager.cpp
lines 201-214). -/
def setMaxRemoteUnidirectionalStreamsInternal (m : QuicStreamManagerState)
    (maxStreams : Nat) (force : Bool) : Except QuicError QuicStreamManagerState :=
  if maxStreams > kMaxMaxStreams then
    .error ⟨.STREAM_LIMIT_ERROR, "Attempt to set maxStreams beyond the max allowed."⟩
  else
    let maxStreamId := maxStreams * kStreamIncrement + m.initialRemoteUnidirectionalStreamId
    if force || maxStreamId > m.maxRemoteUnidirectionalStreamId then
      .ok { m with maxRemoteUnidirectionalStreamId := maxStreamId }
    else .ok m

/-- `setMaxRemoteBidirectionalStreams` (QuicStreamManager.cpp lines 178-180). -/
def setMaxRemoteBidirectionalStreams (m : QuicStreamManagerState) (maxStreams : Nat) :
    Except QuicError QuicStreamManagerState :=
  setMaxRemoteBidirectionalStreamsInternal m maxStreams false

/-- `setMaxRemoteUnidirectionalStreams` (QuicStreamManager.cpp lines 182-184). -/
def setMaxRemoteUnidirectionalStreams (m : QuicStreamManagerState) (maxStreams : Nat) :
    Except QuicError QuicStreamManagerState :=
  setMaxRemoteUnidirectionalStreamsInternal m maxStreams false

/-- `setMaxLocalBidirectionalStreams` (QuicStreamManager.cpp lines 146-160). -/
def setMaxLocalBidirectionalStreams (m : QuicStreamManagerState)
    (maxStreams : Nat) (force : Bool) : Except QuicError QuicStreamManagerState :=
  if maxStreams > kMaxMaxStreams then
    .error ⟨.STREAM_LIMIT_ERROR, "Attempt to set maxStreams beyond the max allowed."⟩
  else
    let maxStreamId := maxStreams * kStreamIncrement + m.initialLocalBidirectionalStreamId
    if force || maxStreamId > m.maxLocalBidirectionalStreamId then
      .ok { m with maxLocalBidirectionalStreamId := maxStreamId,
                   maxLocalBidirectionalStreamIdIncreased := true }
    else .ok m

/-- `setMaxLocalUnidirectionalStreams` (QuicStreamManager.cpp lines 162-176). -/
def setMaxLocalUnidirectionalStreams (m : QuicStreamManagerState)
    (maxStreams : Nat) (force : Bool) : Except QuicError QuicStreamManagerState :=
  if maxStreams > kMaxMaxStreams then
    .error ⟨.STREAM_LIMIT_ERROR, "Attempt to set maxStreams beyond the max allowed."⟩
  else
    let maxStreamId := maxStreams * kStreamIncrement + m.initialLocalUnidirectionalStreamId
    if force || maxStreamId > m.maxLocalUnidirectionalStreamId then
      .ok { m with maxLocalUnidirectionalStreamId := maxStreamId,
                   maxLocalUnidirectionalStreamIdIncreased := true }
    else .ok m

/-- `refreshTransportSettings` (QuicStreamManager.cpp lines 257-264). -/
def refreshTransportSettings (m : QuicStreamManagerState)
    (settings : TransportSettingsModel) : Except QuicError QuicStreamManagerState := do
  let m := { m with transportSettings := settings }
  let m ← setMaxRemoteBidirectionalStreamsInternal m
    settings.advertisedInitialMaxStreamsBidi true
  let m ← setMaxRemoteUnidirectionalStreamsInternal m
    settings.advertisedInitialMaxStreamsUni true
  .ok m

/-- Modelled from the spec: `setStreamLimitWindowingFraction` (header
accessor) just stores the windowing fraction. -/
def setStreamLimitWindowingFraction (m : QuicStreamManagerState) (fraction : Nat) :
    QuicStreamManagerState :=
  { m with streamLimitWindowingFraction := fraction }

/-- Modelled from the spec: `openableRemoteBidirectionalStreams` (header
helper) — the number of additional peer bidirectional streams the peer may
still open, i.e. the ids in `[nextAcceptablePeer, maxRemote)` with stride 4. -/
def openableRemoteBidirectionalStreams (m : QuicStreamManagerState) : Nat :=
  usub64 m.maxRemoteBidirectionalStreamId m.nextAcceptablePeerBidirectionalStreamId
    / kStreamIncrement

/-- Modelled from the spec: see `openableRemoteBidirectionalStreams`. -/
def openableRemoteUnidirectionalStreams (m : QuicStreamManagerState) : Nat :=
  usub64 m.maxRemoteUnidirectionalStreamId m.nextAcceptablePeerUnidirectionalStreamId
    / kStreamIncrement

/-- `removeClosedStream` (QuicStreamManager.cpp lines 444-521).  The erase
calls on the auxiliary index sets are dropped with those fields; the
`isControl` bookkeeping is omitted (no claim involves control streams);
stats and observer notifications are dropped. -/
def removeClosedStream (m : QuicStreamManagerState) (streamId : Nat) :
    Except QuicError QuicStreamManagerState :=
  if !m.streams.contains streamId then .ok m
  else if !(m.streamPriorityLevels.map Prod.fst).contains streamId then
    .error ⟨.STREAM_STATE_ERROR, "Removed stream is not in the priority map"⟩
  else
    let m := { m with
      streamPriorityLevels := m.streamPriorityLevels.filter (fun p => p.1 ≠ streamId),
      streams := m.streams.filter (· ≠ streamId) }
    if isRemoteStream m.nodeType streamId then
      let uni := isUnidirectionalStream streamId
      let openPeerStreams := (if uni then m.openUnidirectionalPeerStreams
        else m.openBidirectionalPeerStreams).filter (· ≠ streamId)
      let m := if uni then { m with openUnidirectionalPeerStreams := openPeerStreams }
        else { m with openBidirectionalPeerStreams := openPeerStreams }
      let initialStreamLimit := if uni
        then m.transportSettings.advertisedInitialMaxStreamsUni
        else m.transportSettings.advertisedInitialMaxStreamsBidi
      let streamWindow := initialStreamLimit / m.streamLimitWindowingFraction
      let openableRemoteStreams := if uni then openableRemoteUnidirectionalStreams m
        else openableRemoteBidirectionalStreams m
      let streamCredit :=
        usub64 (usub64 initialStreamLimit openableRemoteStreams) openPeerStreams.length
      if streamCredit ≥ streamWindow then
        if uni then do
          let maxStreams := usub64 m.maxRemoteUnidirectionalStreamId
            m.initialRemoteUnidirectionalStreamId / kStreamIncrement
          let m ← setMaxRemoteUnidirectionalStreams m (maxStreams + streamCredit)
          .ok (updateAppIdleState { m with
            remoteUnidirectionalStreamLimitUpdate := some (maxStreams + streamCredit) })
        else do
          let maxStreams := usub64 m.maxRemoteBidirectionalStreamId
            m.initialRemoteBidirectionalStreamId / kStreamIncrement
          let m ← setMaxRemoteBidirectionalStreams m (maxStreams + streamCredit)
          .ok (updateAppIdleState { m with
            remoteBidirectionalStreamLimitUpdate := some (maxStreams + streamCredit) })
      else .ok (updateAppIdleState m)
    else
      let m := if isUnidirectionalStream streamId then
          { m with openUnidirectionalLocalStreams :=
              m.openUnidirectionalLocalStreams.filter (· ≠ streamId) }
        else
          { m with openBidirectionalLocalStreams :=
              m.openBidirectionalLocalStreams.filter (· ≠ streamId) }
      .ok (updateAppIdleState m)

/-- Modelled from the spec: `remoteBidirectionalStreamLimitUpdate()` (header
accessor) hands out the pending MAX_STREAMS update and clears it, so a
second read returns none (spec section 8, scenario 5). -/
def remoteBidirectionalStreamLimitUpdateGet (m : QuicStreamManagerState) :
    Option Nat × QuicStreamManagerState :=
  (m.remoteBidirectionalStreamLimitUpdate,
   { m with remoteBidirectionalStreamLimitUpdate := none })

/-! ## Server connection state (ServerStateMachine) -/

inductive QuicVersion where
  | VERSION_NEGOTIATION
  | MVFST
  | QUIC_V1
  | QUIC_DRAFT
  | MVFST_EXPERIMENTAL
  deriving DecidableEq, Repr

inductive EncryptionLevel where
  | Initial
  | Handshake
  | EarlyData
  | AppData
  deriving DecidableEq, Repr

inductive D6DMachineState where
  | DISABLED
  | BASE
  | SEARCHING
  | SEARCH_COMPLETE
  | ERROR
  deriving DecidableEq, Repr

/-- The PLPMTUD (d6d) state written by `processClientInitialParams`. -/
structure D6DState where
  basePMTU : Nat
  maxPMTU : Nat
  raiseTimeout : Nat
  probeTimeout : Nat
  state : D6DMachineState
  metaLastNonSearchState : D6DMachineState
  metaTimeLastNonSearchState : Nat
  noBlackholeDetection : Bool
  deriving DecidableEq, Repr

/-- Peer-advertised flow-control windows. -/
structure FlowControlState where
  peerAdvertisedMaxOffset : Nat
  peerAdvertisedInitialMaxStreamOffsetBidiLocal : Nat
  peerAdvertisedInitialMaxStreamOffsetBidiRemote : Nat
  peerAdvertisedInitialMaxStreamOffsetUni : Nat
  deriving DecidableEq, Repr

structure DatagramState where
  maxReadFrameSize : Nat
  maxWriteFrameSize : Nat
  deriving DecidableEq, Repr

/-- The read codec's cipher slots (installed = true) and the recorded
client connection id (connection ids embedded as `Nat`). -/
structure ReadCodecState where
  clientConnectionId : Option Nat
  initialReadCipher : Bool
  initialHeaderCipher : Bool
  zeroRttReadCipher : Bool
  zeroRttHeaderCipher : Bool
  oneRttReadCipher : Bool
  oneRttHeaderCipher : Bool
  handshakeReadCipher : Bool
  handshakeHeaderCipher : Bool
  deriving DecidableEq, Repr

/-- The server connection state (`QuicServerConnectionState`): the fields
read or written by the embedded operations. -/
structure ServerConn where
  version : Option QuicVersion
  peerAddress : SocketAddress
  transportSettings : TransportSettingsModel
  ackStates : AckStates
  pendingEvents : PendingEvents
  lossState : LossState
  migrationState : MigrationState
  outstandingPathValidation : Option Nat
  pathValidationLimiter : Option Nat
  congestionController : Option Nat
  streamManager : QuicStreamManagerState
  readCodec : ReadCodecState
  oneRttWriteCipher : Bool
  oneRttWriteHeaderCipher : Bool
  usedZeroRtt : Bool
  pacingKeyEstablished : Bool
  writableBytesLimit : Option Nat
  sentHandshakeDone : Bool
  flowControlState : FlowControlState
  datagramState : DatagramState
  peerIdleTimeout : Nat
  peerAckDelayExponent : Nat
  peerMinAckDelay : Option Nat
  peerMaxUdpPayloadSize : Nat
  peerActiveConnectionIdLimit : Nat
  udpSendPacketLen : Nat
  d6d : D6DState
  deriving DecidableEq, Repr

/-- A failure of a server-state-machine operation: either a thrown
`QuicTransportException` (which the connection boundary translates into a
CONNECTION_CLOSE with that code), or a failed `CHECK` (a crash in the
source, never reachable in well-formed states). -/
inductive Failure where
  | err (e : QuicError)
  | checkFailure (msg : String)
  deriving DecidableEq, Repr

/-! ## ACK scheduling functions (QuicStateFunctions.cpp lines 76-162) -/

/-- The `thresh` computed at the top of `updateAckSendStateOnRecvPacket`
(lines 83-93). -/
def selectedAckThreshold (settings : TransportSettingsModel) (ackState : AckState)
    (pktHasRetransmittableData : Bool) : Nat :=
  if pktHasRetransmittableData || ackState.numRxPacketsRecvd != 0 then
    match ackState.tolerance with
    | some t => t
    | none =>
      if ackState.largestReceivedPacketNum.getD 0 >
          settings.rxPacketsBeforeAckInitThreshold
      then settings.rxPacketsBeforeAckAfterInit
      else settings.rxPacketsBeforeAckBeforeInit
  else kNonRtxRxPacketsPendingBeforeAck

/-- `updateAckSendStateOnRecvPacket` (QuicStateFunctions.cpp lines 76-136).
The `ackState` reference argument is returned alongside the connection.
Note the C++ short-circuit: when the packet has crypto data or is counted
out-of-order, `numRxPacketsRecvd` is *not* incremented. -/
def updateAckSendStateOnRecvPacket (conn : ServerConn) (ackState : AckState)
    (pktOutOfOrder pktHasRetransmittableData pktHasCryptoData : Bool) :
    ServerConn × AckState :=
  let thresh := selectedAckThreshold conn.transportSettings ackState
    pktHasRetransmittableData
  let pktOutOfOrder := if ackState.ignoreReorder then false else pktOutOfOrder
  let (conn, ackState) :=
    if pktHasRetransmittableData then
      if pktHasCryptoData || pktOutOfOrder then
        ({ conn with pendingEvents.scheduleAckTimeout := false },
         { ackState with needsToSendAckImmediately := true })
      else
        let ackState := { ackState with
          numRxPacketsRecvd := ackState.numRxPacketsRecvd + 1 }
        if ackState.numRxPacketsRecvd + ackState.numNonRxPacketsRecvd ≥ thresh then
          ({ conn with pendingEvents.scheduleAckTimeout := false },
           { ackState with needsToSendAckImmediately := true })
        else if !ackState.needsToSendAckImmediately then
          ({ conn with pendingEvents.scheduleAckTimeout := true }, ackState)
        else (conn, ackState)
    else
      let ackState := { ackState with
        numNonRxPacketsRecvd := ackState.numNonRxPacketsRecvd + 1 }
      if ackState.numNonRxPacketsRecvd + ackState.numRxPacketsRecvd ≥ thresh then
        ({ conn with pendingEvents.scheduleAckTimeout := false },
         { ackState with needsToSendAckImmediately := true })
      else (conn, ackState)
  if ackState.needsToSendAckImmediately then
    (conn, { ackState with numRxPacketsRecvd := 0, numNonRxPacketsRecvd := 0 })
  else (conn, ackState)

/-- `updateAckStateOnAckTimeout` (QuicStateFunctions.cpp lines 138-144). -/
def updateAckStateOnAckTimeout (conn : ServerConn) : ServerConn :=
  { conn with
    ackStates.appDataAckState.needsToSendAckImmediately := true,
    ackStates.appDataAckState.numRxPacketsRecvd := 0,
    ackStates.appDataAckState.numNonRxPacketsRecvd := 0,
    pendingEvents.scheduleAckTimeout := false }

/-! ## Client transport-parameter processing
(`processClientInitialParams`, ServerStateMachine.cpp lines 99-320) -/

/-- Modelled from the spec: `kMaxAckDelay` — max_ack_delay at or above
2^14 (ms) is rejected (spec sections 4.1.6 and 8, scenario 2). -/
def kMaxAckDelay : Nat := 2 ^ 14

/-- Modelled from the spec: `kMinMaxUDPPayload` (QUIC's 1200-byte floor). -/
def kMinMaxUDPPayload : Nat := 1200

/-- Modelled from the spec: the protocol cap on ack_delay_exponent. -/
def kMaxAckDelayExponent : Nat := 20

/-- Modelled from the spec: the default ack_delay_exponent. -/
def kDefaultAckDelayExponent : Nat := 3

/-- Modelled from the spec: the local cap on idle timeout (ms); exact value
immaterial to the claims. -/
def kMaxIdleTimeout : Nat := 600000

/-- Modelled from the spec: the default upper bound for the UDP payload
size while probing PMTU; exact value immaterial to the claims. -/
def kDefaultMaxUDPPayload : Nat := 1452

/-- Modelled from the spec: the default UDP send packet length; exact value
immaterial to the claims. -/
def kDefaultUDPSendPacketLen : Nat := 1252

/-- Modelled from the spec: default active_connection_id_limit. -/
def kDefaultActiveConnectionIdLimit : Nat := 2

/-- Modelled from the spec: the per-datagram-frame overhead below which a
non-zero max_datagram_frame_size is useless; value immaterial. -/
def kMaxDatagramPacketOverhead : Nat := 10

/-- Modelled from the spec: minimum sane d6d raise timeout (seconds). -/
def kMinD6DRaiseTimeout : Nat := 30

/-- Modelled from the spec: minimum sane d6d probe timeout (seconds). -/
def kMinD6DProbeTimeout : Nat := 1

/-- The client transport parameters, each `getIntegerParameter` /
`getConnIdParameter` lookup embedded as an `Option` field. -/
structure ClientTransportParameters where
  preferredAddress : Option Nat
  origConnId : Option Nat
  statelessResetToken : Option Nat
  retrySourceConnId : Option Nat
  maxData : Option Nat
  maxStreamDataBidiLocal : Option Nat
  maxStreamDataBidiRemote : Option Nat
  maxStreamDataUni : Option Nat
  maxStreamsBidi : Option Nat
  maxStreamsUni : Option Nat
  idleTimeout : Option Nat
  ackDelayExponent : Option Nat
  packetSize : Option Nat
  activeConnectionIdLimit : Option Nat
  d6dBasePMTU : Option Nat
  d6dRaiseTimeout : Option Nat
  d6dProbeTimeout : Option Nat
  minAckDelay : Option Nat
  maxAckDelay : Option Nat
  maxDatagramFrameSize : Option Nat
  initialSourceConnId : Option Nat
  deriving DecidableEq, Repr

/-- The parameter rejections of `processClientInitialParams`
(ServerStateMachine.cpp lines 153-206): initial_source_connection_id match
for v1/draft, server-only parameters, max_ack_delay and max_packet_size
ranges.  These all precede the first state mutation in the source. -/
def pcipRejectionChecks (conn : ServerConn) (cp : ClientTransportParameters) :
    Except Failure Unit := do
  if conn.version == some .QUIC_DRAFT || conn.version == some .QUIC_V1 then
    match cp.initialSourceConnId with
    | none =>
        throw (.err ⟨.TRANSPORT_PARAMETER_ERROR, "Initial CID does not match."⟩)
    | some c =>
        if conn.readCodec.clientConnectionId ≠ some c then
          throw (.err ⟨.TRANSPORT_PARAMETER_ERROR, "Initial CID does not match."⟩)
  if cp.preferredAddress.any (· ≠ 0) then
    throw (.err ⟨.TRANSPORT_PARAMETER_ERROR, "Preferred Address is received by server"⟩)
  if cp.origConnId.any (· ≠ 0) then
    throw (.err ⟨.TRANSPORT_PARAMETER_ERROR,
      "OriginalDestinationConnectionId is received by server"⟩)
  if cp.statelessResetToken.any (· ≠ 0) then
    throw (.err ⟨.TRANSPORT_PARAMETER_ERROR, "Stateless Reset Token is received by server"⟩)
  if cp.retrySourceConnId.any (· ≠ 0) then
    throw (.err ⟨.TRANSPORT_PARAMETER_ERROR,
      "Retry Source Connection ID is received by server"⟩)
  if cp.maxAckDelay.any (· ≥ kMaxAckDelay) then
    throw (.err ⟨.TRANSPORT_PARAMETER_ERROR, "Max Ack Delay is greater than 2^14 "⟩)
  if cp.packetSize.any (· < kMinMaxUDPPayload) then
    throw (.err ⟨.TRANSPORT_PARAMETER_ERROR, "Max packet size too small."⟩)
  return ()

/-- The flow-control / stream-limit / ack-delay / datagram application part
of `processClientInitialParams` (ServerStateMachine.cpp lines 208-247). -/
def pcipApplyParams (conn : ServerConn) (cp : ClientTransportParameters) :
    Except Failure ServerConn := do
  let conn := { conn with flowControlState := {
    peerAdvertisedMaxOffset := cp.maxData.getD 0,
    peerAdvertisedInitialMaxStreamOffsetBidiLocal := cp.maxStreamDataBidiLocal.getD 0,
    peerAdvertisedInitialMaxStreamOffsetBidiRemote := cp.maxStreamDataBidiRemote.getD 0,
    peerAdvertisedInitialMaxStreamOffsetUni := cp.maxStreamDataUni.getD 0 } }
  let sm ← (setMaxLocalBidirectionalStreams conn.streamManager
    (cp.maxStreamsBidi.getD 0) false).mapError Failure.err
  let sm ← (setMaxLocalUnidirectionalStreams sm
    (cp.maxStreamsUni.getD 0) false).mapError Failure.err
  let conn := { conn with streamManager := sm }
  let conn := { conn with peerIdleTimeout := Nat.min (cp.idleTimeout.getD 0) kMaxIdleTimeout }
  if cp.ackDelayExponent.any (· > kMaxAckDelayExponent) then
    throw (.err ⟨.TRANSPORT_PARAMETER_ERROR, "ack_delay_exponent too large"⟩)
  let conn := { conn with
    peerAckDelayExponent := cp.ackDelayExponent.getD kDefaultAckDelayExponent }
  let conn := match cp.minAckDelay with
    | some v => { conn with peerMinAckDelay := some v }
    | none => conn
  match cp.maxDatagramFrameSize with
  | some v =>
      if v > 0 && v ≤ kMaxDatagramPacketOverhead then
        throw (.err ⟨.TRANSPORT_PARAMETER_ERROR, "max_datagram_frame_size too small"⟩)
      else
        return { conn with datagramState.maxWriteFrameSize := v }
  | none => return conn

/-- The PMTU / active-connection-id part of `processClientInitialParams`
(ServerStateMachine.cpp lines 249-270); returns the computed
`maxUdpPayloadSize` (needed by the d6d block) with the updated state. -/
def pcipPmtuAndCid (conn : ServerConn) (cp : ClientTransportParameters) :
    Nat × ServerConn :=
  let maxUdpPayloadSize := kDefaultMaxUDPPayload
  let (maxUdpPayloadSize, conn) := match cp.packetSize with
    | some v =>
        let maxUdpPayloadSize := Nat.min v maxUdpPayloadSize
        let conn := { conn with peerMaxUdpPayloadSize := maxUdpPayloadSize }
        if conn.transportSettings.canIgnorePathMTU then
          if v > kDefaultMaxUDPPayload then
            (maxUdpPayloadSize, { conn with udpSendPacketLen := kDefaultUDPSendPacketLen })
          else
            (maxUdpPayloadSize, { conn with udpSendPacketLen := maxUdpPayloadSize })
        else (maxUdpPayloadSize, conn)
    | none => (maxUdpPayloadSize, conn)
  (maxUdpPayloadSize,
   { conn with peerActiveConnectionIdLimit :=
      cp.activeConnectionIdLimit.getD kDefaultActiveConnectionIdLimit })

/-- The d6d raise/probe timeout handling at the end of
`processClientInitialParams` (ServerStateMachine.cpp lines 300-318). -/
def applyD6DTimeouts (conn : ServerConn) (cp : ClientTransportParameters) : ServerConn :=
  let conn := match cp.d6dRaiseTimeout with
    | some v => if v ≥ kMinD6DRaiseTimeout then { conn with d6d.raiseTimeout := v } else conn
    | none => conn
  match cp.d6dProbeTimeout with
  | some v => if v ≥ kMinD6DProbeTimeout then { conn with d6d.probeTimeout := v } else conn
  | none => conn

/-- The d6d block of `processClientInitialParams` (ServerStateMachine.cpp
lines 272-319).  When the base-PMTU sanity check fails the source logs and
returns early (successfully) without configuring the remaining d6d
parameters. -/
def pcipD6D (conn : ServerConn) (cp : ClientTransportParameters) (now : Nat)
    (maxUdpPayloadSize : Nat) : ServerConn :=
  if conn.transportSettings.d6dEnabled then
    match cp.d6dBasePMTU with
    | some v =>
        if v ≥ kMinMaxUDPPayload && v ≤ kDefaultMaxUDPPayload then
          let conn := { conn with d6d := { conn.d6d with
            basePMTU := Nat.max v conn.udpSendPacketLen,
            maxPMTU := maxUdpPayloadSize,
            state := .BASE,
            metaLastNonSearchState := .DISABLED,
            metaTimeLastNonSearchState := now,
            noBlackholeDetection := true } }
          applyD6DTimeouts conn cp
        else conn
    | none => applyD6DTimeouts conn cp
  else conn

/-- `processClientInitialParams` (ServerStateMachine.cpp lines 99-320),
composed from the staged translations above in source order.  `now` stands
for `Clock::now()`. -/
def processClientInitialParams (conn : ServerConn) (cp : ClientTransportParameters)
    (now : Nat) : Except Failure ServerConn := do
  pcipRejectionChecks conn cp
  let conn ← pcipApplyParams conn cp
  let (maxUdpPayloadSize, conn) := pcipPmtuAndCid conn cp
  return pcipD6D conn cp now maxUdpPayloadSize

/-! ## Handshake progression (`updateHandshakeState`,
ServerStateMachine.cpp lines 322-402) -/

/-- What the handshake driver yields during one invocation of
`updateHandshakeState`: each `get...Cipher()` call's result (`true` = a
cipher was handed out), the client transport parameters, and the done
flag. -/
structure HandshakeLayerSnapshot where
  zeroRttReadCipher : Bool
  zeroRttReadHeaderCipher : Bool
  oneRttWriteCipher : Bool
  oneRttReadCipher : Bool
  oneRttWriteHeaderCipher : Bool
  oneRttReadHeaderCipher : Bool
  handshakeReadCipher : Bool
  handshakeReadHeaderCipher : Bool
  clientTransportParams : Option ClientTransportParameters
  handshakeDone : Bool
  deriving Repr

/-- The zero-RTT and header-cipher installs at the top of
`updateHandshakeState` (ServerStateMachine.cpp lines 326-354). -/
def uhsInstallEarlyCiphers (conn : ServerConn) (hs : HandshakeLayerSnapshot) : ServerConn :=
  let conn := if hs.zeroRttReadCipher then
      { conn with usedZeroRtt := true, readCodec.zeroRttReadCipher := true }
    else conn
  let conn := if hs.zeroRttReadHeaderCipher then
      { conn with readCodec.zeroRttHeaderCipher := true }
    else conn
  let conn := if hs.oneRttWriteHeaderCipher then
      { conn with oneRttWriteHeaderCipher := true }
    else conn
  if hs.oneRttReadHeaderCipher then
    { conn with readCodec.oneRttHeaderCipher := true }
  else conn

/-- The 1-RTT write-cipher block of `updateHandshakeState`
(ServerStateMachine.cpp lines 356-377): a second install is a fatal
CRYPTO_ERROR; on the first install, pacing is notified
(`updatePacingOnKeyEstablished`, modelled per the spec as setting
`pacingKeyEstablished`) and the client transport parameters are required
and processed. -/
def uhsWriteCipherBlock (conn : ServerConn) (hs : HandshakeLayerSnapshot)
    (now : Nat) : Except Failure ServerConn :=
  if hs.oneRttWriteCipher then
    if conn.oneRttWriteCipher then
      .error (.err ⟨.CRYPTO_ERROR, "Duplicate 1-rtt write cipher"⟩)
    else
      let conn := { conn with oneRttWriteCipher := true, pacingKeyEstablished := true }
      match hs.clientTransportParams with
      | none => .error (.err ⟨.TRANSPORT_PARAMETER_ERROR, "No client transport params"⟩)
      | some cp => processClientInitialParams conn cp now
  else .ok conn

/-- The 1-RTT read-cipher block of `updateHandshakeState`
(ServerStateMachine.cpp lines 378-385): CFIN has arrived, so the
writable-bytes limit is cleared. -/
def uhsReadCipherBlock (conn : ServerConn) (hs : HandshakeLayerSnapshot) : ServerConn :=
  if hs.oneRttReadCipher then
    { conn with writableBytesLimit := none, readCodec.oneRttReadCipher := true }
  else conn

/-- The handshake read-cipher block of `updateHandshakeState`
(ServerStateMachine.cpp lines 386-394): both data and header ciphers are
installed together (their joint availability is a `CHECK`). -/
def uhsHandshakeCipherBlock (conn : ServerConn) (hs : HandshakeLayerSnapshot) :
    Except Failure ServerConn :=
  if hs.handshakeReadCipher then
    if !hs.handshakeReadHeaderCipher then
      .error (.checkFailure "CHECK(handshakeReadHeaderCipher)")
    else
      .ok { conn with readCodec.handshakeReadCipher := true,
                      readCodec.handshakeHeaderCipher := true }
  else .ok conn

/-- The handshake-done block of `updateHandshakeState`
(ServerStateMachine.cpp lines 395-401): send HANDSHAKE_DONE exactly once
(`sendSimpleFrame` is modelled per the spec as queueing the frame in
`pendingEvents.frames`). -/
def uhsDoneBlock (conn : ServerConn) (hs : HandshakeLayerSnapshot) :
    Except Failure ServerConn :=
  if hs.handshakeDone then
    if !conn.oneRttWriteCipher then
      .error (.checkFailure "CHECK(conn.oneRttWriteCipher)")
    else if !conn.sentHandshakeDone then
      .ok { conn with
        pendingEvents.frames := conn.pendingEvents.frames ++ [.handshakeDoneFrame],
        sentHandshakeDone := true }
    else .ok conn
  else .ok conn

/-- `updateHandshakeState` (ServerStateMachine.cpp lines 322-402), composed
from the staged translations above in source order.  `now` stands for
`Clock::now()`. -/
def updateHandshakeState (conn : ServerConn) (hs : HandshakeLayerSnapshot)
    (now : Nat) : Except Failure ServerConn := do
  let conn := uhsInstallEarlyCiphers conn hs
  let conn ← uhsWriteCipherBlock conn hs now
  let conn := uhsReadCipherBlock conn hs
  let conn ← uhsHandshakeCipherBlock conn hs
  uhsDoneBlock conn hs

/-! ## Connection migration (ServerStateMachine.cpp lines 34-97, 487-562,
871-902) -/

/-- `inSubnet(addr, 24)` on IPv4: same /24 prefix, i.e. the 32-bit
addresses agree above the low 8 bits. -/
def inSubnet24 (a b : Nat) : Bool := a / 256 == b / 256

/-- `maybeNATRebinding` (ServerStateMachine.cpp lines 34-47).  It is only
called when the addresses differ, so equal IPs means a port-only change. -/
def maybeNATRebinding (newPeerAddress oldPeerAddress : SocketAddress) : Bool :=
  if newPeerAddress.ip == oldPeerAddress.ip && newPeerAddress.isV4 == oldPeerAddress.isV4 then
    true
  else
    newPeerAddress.isV4 && oldPeerAddress.isV4 &&
      inSubnet24 newPeerAddress.ip oldPeerAddress.ip

/-- `moveCurrentCongestionAndRttState` (ServerStateMachine.cpp lines 49-60);
moving the owned congestion controller nulls it out on the connection. -/
def moveCurrentCongestionAndRttState (conn : ServerConn) (now : Nat) :
    CongestionAndRttState × ServerConn :=
  ({ peerAddress := conn.peerAddress,
     recordTime := now,
     congestionController := conn.congestionController,
     srtt := conn.lossState.srtt,
     lrtt := conn.lossState.lrtt,
     rttvar := conn.lossState.rttvar,
     mrtt := conn.lossState.mrtt },
   { conn with congestionController := none })

/-- `resetCongestionAndRttState` (ServerStateMachine.cpp lines 62-72); the
congestion-controller factory's freshly built controller is the token
`some 0`. -/
def resetCongestionAndRttState (conn : ServerConn) : ServerConn :=
  { conn with
    congestionController := some 0,
    lossState := { conn.lossState with
      srtt := 0
      lrtt := 0
      rttvar := 0
      mrtt := kDefaultMinRtt } }

/-- `recoverOrResetCongestionAndRttState` (ServerStateMachine.cpp
lines 74-91). -/
def recoverOrResetCongestionAndRttState (conn : ServerConn)
    (peerAddress : SocketAddress) (now : Nat) : ServerConn :=
  match conn.migrationState.lastCongestionAndRtt with
  | some lastState =>
      if lastState.peerAddress == peerAddress &&
          now - lastState.recordTime ≤ kTimeToRetainLastCongestionAndRttState then
        { conn with
          congestionController := lastState.congestionController,
          lossState := { conn.lossState with
            srtt := lastState.srtt
            lrtt := lastState.lrtt
            rttvar := lastState.rttvar
            mrtt := lastState.mrtt },
          migrationState.lastCongestionAndRtt := none }
      else resetCongestionAndRttState conn
  | none => resetCongestionAndRttState conn

/-- `onConnectionMigration` (ServerStateMachine.cpp lines 487-562).
`pathData` stands for the secure-random PATH_CHALLENGE datum and `now` for
`Clock::now()`; `isIntentional` only feeds qlog and is kept for the
signature.  The fresh `PendingPathRateLimiter` is embedded as
`some udpSendPacketLen`. -/
def onConnectionMigration (conn : ServerConn) (newPeerAddress : SocketAddress)
    (isIntentional : Bool) (pathData : Nat) (now : Nat) :
    Except Failure ServerConn := do
  let _ := isIntentional
  if conn.migrationState.numMigrations ≥ kMaxNumMigrationsAllowed then
    throw (.err ⟨.INVALID_MIGRATION, "Too many migrations"⟩)
  let conn := { conn with
    migrationState.numMigrations := conn.migrationState.numMigrations + 1 }
  let hasPendingPathChallenge := conn.pendingEvents.pathChallenge.isSome
  let conn := { conn with pendingEvents.pathChallenge := none }
  let conn :=
    if !conn.migrationState.previousPeerAddresses.contains newPeerAddress then
      { conn with
        pendingEvents.pathChallenge := some pathData,
        pathValidationLimiter := some conn.udpSendPacketLen }
    else
      { conn with
        migrationState.previousPeerAddresses :=
          conn.migrationState.previousPeerAddresses.erase newPeerAddress }
  let isNATRebinding := maybeNATRebinding newPeerAddress conn.peerAddress
  let conn :=
    if hasPendingPathChallenge || conn.outstandingPathValidation.isSome then
      let conn := { conn with
        pendingEvents.schedulePathValidationTimeout := false,
        outstandingPathValidation := none }
      if !isNATRebinding then recoverOrResetCongestionAndRttState conn newPeerAddress now
      else conn
    else
      let conn := { conn with
        migrationState.previousPeerAddresses :=
          conn.migrationState.previousPeerAddresses ++ [conn.peerAddress] }
      if !isNATRebinding then
        let (state, conn) := moveCurrentCongestionAndRttState conn now
        let conn := recoverOrResetCongestionAndRttState conn newPeerAddress now
        { conn with migrationState.lastCongestionAndRtt := some state }
      else conn
  return { conn with peerAddress := newPeerAddress }

/-- The peer-address-change guard of the per-packet pipeline in
`onServerReadDataFromOpen` (ServerStateMachine.cpp lines 871-902): on a
packet whose source differs from the current peer address, a non-AppData
encryption level or administratively disabled migration raises
INVALID_MIGRATION; the connection state is returned untouched otherwise. -/
def onReceivedPacketPeerAddressCheck (conn : ServerConn) (readPeer : SocketAddress)
    (encryptionLevel : EncryptionLevel) : Except Failure ServerConn := do
  if conn.peerAddress ≠ readPeer then
    if encryptionLevel ≠ EncryptionLevel.AppData then
      throw (.err ⟨.INVALID_MIGRATION, "Migration not allowed during handshake"⟩)
    if conn.transportSettings.disableMigration then
      throw (.err ⟨.INVALID_MIGRATION, "Migration disabled"⟩)
  return conn

/-- A sequence of `onConnectionMigration` calls (address, intentional flag,
path datum, time), as performed by successive migrating packets. -/
def migrateSeq (conn : ServerConn) (steps : List (SocketAddress × Bool × Nat × Nat)) :
    Except Failure ServerConn :=
  steps.foldlM (fun c s => onConnectionMigration c s.1 s.2.1 s.2.2.1 s.2.2.2) conn

/-! ## Self connection-id allocation
(`QuicServerConnectionState::createAndAddNewSelfConnId`,
ServerStateMachine.cpp lines 1397-1427) -/

/-- `kConnIdEncodingRetryLimit` (ServerStateMachine.cpp line 32). -/
def kConnIdEncodingRetryLimit : Nat := 16

/-- A self connection id entry (`ConnectionIdData`): the id, its sequence
number, and the stateless-reset token generated for it.  Connection ids and
tokens are embedded as `Nat`. -/
structure ConnectionIdData where
  connId : Nat
  sequenceNumber : Nat
  token : Nat
  deriving DecidableEq, Repr

/-- The slice of `QuicServerConnectionState` that
`createAndAddNewSelfConnId` reads and writes. -/
structure SelfConnIdState where
  nextSelfConnectionIdSequence : Nat
  selfConnectionIds : List ConnectionIdData
  deriving DecidableEq, Repr

/-- The retry loop of `createAndAddNewSelfConnId` (lines 1410-1416).
`encode i` is the result of the `(i+1)`-th `connIdAlgo->encodeConnectionId`
call (an `Except` because the algorithm can report an error); `rejector`
is the optional `connIdRejector`.  Returns the final `encodedCid` together
with the final `encodedTimes` counter.  Note the C++ `&&` order: the
counter `++encodedTimes` is incremented only when the current id was
rejected, and the loop re-encodes only while the incremented counter is
still below `kConnIdEncodingRetryLimit`. -/
def connIdEncodeLoop (encode : Nat → Except Unit Nat) (rejector : Option (Nat → Bool)) :
    Except Unit Nat × Nat :=
  go (encode 0) 0 kConnIdEncodingRetryLimit
where
  go (encodedCid : Except Unit Nat) (encodedTimes : Nat) : Nat → Except Unit Nat × Nat
    | 0 => (encodedCid, encodedTimes)
    | fuel + 1 =>
      match encodedCid, rejector with
      | .ok cid, some reject =>
          if reject cid then
            if encodedTimes + 1 < kConnIdEncodingRetryLimit then
              go (encode (encodedTimes + 1)) (encodedTimes + 1) fuel
            else (encodedCid, encodedTimes + 1)
          else (encodedCid, encodedTimes)
      | _, _ => (encodedCid, encodedTimes)

/-- `createAndAddNewSelfConnId` (ServerStateMachine.cpp lines 1397-1427).
The `StatelessResetGenerator` (keyed on the reset-token secret and the
server address, both external) is passed in as the token function
`genToken`.  After the retry loop, the function returns `none` only when
the encoder reported an error; otherwise it installs the resulting id —
even one the rejector rejected after the retry limit was exhausted (the
source merely logs that case). -/
def createAndAddNewSelfConnId (st : SelfConnIdState)
    (encode : Nat → Except Unit Nat) (rejector : Option (Nat → Bool))
    (genToken : Nat → Nat) : Option ConnectionIdData × SelfConnIdState :=
  let r := connIdEncodeLoop encode rejector
  match r.1 with
  | .error _ => (none, st)
  | .ok cid =>
      let newConnIdData : ConnectionIdData :=
        { connId := cid,
          sequenceNumber := st.nextSelfConnectionIdSequence,
          token := genToken cid }
      (some newConnIdData,
       { st with
         nextSelfConnectionIdSequence := st.nextSelfConnectionIdSequence + 1,
         selfConnectionIds := st.selfConnectionIds ++ [newConnIdData] })

/-! ## Transport knobs (`parseTransportKnobs`, TransportKnobs.cpp) -/

/-- `kKnobFractionMax` (TransportKnobs.cpp line 12). -/
def kKnobFractionMax : Nat := 100

/-- Modelled from the spec: `kDefaultMaxPriority` — priority levels range
over [0, 7] (spec sections 3 and 4.6). -/
def kDefaultMaxPriority : Nat := 7

/-- Modelled from the spec: `kPriorityThresholdKnobMultiplier` — the
auto-background knob packs `priority × multiplier + percent`; the
multiplier's value is immaterial to the claims. -/
def kPriorityThresholdKnobMultiplier : Nat := 65536

/-- Modelled from the spec: the `TransportKnobParamId` values for the
string-typed knobs, numbered as in the spec's knob-parsing scenario
(section 8, scenario 6: knob 1 is CC_ALGORITHM, knob 2 is
STARTUP_RTT_FACTOR, knob 3 is AUTO_BACKGROUND_MODE); the remaining
DEFAULT_RTT_FACTOR knob gets the next id. -/
def CC_ALGORITHM_KNOB : Nat := 1

/-- Modelled from the spec: see `CC_ALGORITHM_KNOB`. -/
def STARTUP_RTT_FACTOR_KNOB : Nat := 2

/-- Modelled from the spec: see `CC_ALGORITHM_KNOB`. -/
def AUTO_BACKGROUND_MODE_KNOB : Nat := 3

/-- Modelled from the spec: see `CC_ALGORITHM_KNOB`. -/
def DEFAULT_RTT_FACTOR_KNOB : Nat := 4

/-- A `folly::dynamic` JSON value as `parseTransportKnobs` dispatches on
it; `other` stands for ARRAY / NULLT / OBJECT. -/
inductive FollyDynamic where
  | bool (b : Bool)
  | int (i : Int)
  | str (s : List Char)
  | other
  deriving DecidableEq, Repr

/-- Modelled from the spec: `congestionControlStrToType` (QuicConstants,
outside the reviewed sources) maps a lowercase congestion-control
algorithm name to its enum value; the exact values are immaterial to the
claims. -/
def congestionControlStrToType (s : List Char) : Option Nat :=
  if s = "newreno".data then some 0
  else if s = "cubic".data then some 1
  else if s = "copa".data then some 2
  else if s = "bbr".data then some 3
  else none

/-- Digit-string to number (no sign). -/
def digitsToNat (s : List Char) : Option Nat :=
  if s.isEmpty then none
  else s.foldl (fun acc c =>
    match acc with
    | none => none
    | some n => if c.isDigit then some (n * 10 + (c.toNat - '0'.toNat)) else none)
    (some 0)

/-- `folly::tryTo<int>` on a string: an optional minus sign followed by
digits.  (folly also fails on values overflowing `int`; every such value
is rejected downstream by the range checks exactly as the overflowed parse
would be, so the accepted inputs coincide.) -/
def tryToInt (s : List Char) : Option Int :=
  match s with
  | '-' :: rest => (digitsToNat rest).map (fun n => -(n : Int))
  | _ => (digitsToNat s).map (fun n => (n : Int))

/-- `std::string::find(c)` + the two `substr` calls: split at the first
occurrence of `c`, the second component keeping everything after it. -/
def splitAtFirst (c : Char) : List Char → Option (List Char × List Char)
  | [] => none
  | x :: rest =>
      if x = c then some ([], rest)
      else (splitAtFirst c rest).map (fun p => (x :: p.1, p.2))

/-- `folly::split(',', s, a, b)`: succeeds iff the string has exactly one
comma, yielding the two (possibly empty) pieces. -/
def splitExact2 (c : Char) (s : List Char) : Option (List Char × List Char) :=
  match splitAtFirst c s with
  | none => none
  | some (a, b) => if b.contains c then none else some (a, b)

/-- One iteration of the `parseTransportKnobs` loop: the `(id, value)`
pair pushed for this entry, or `none` when the whole parse must fail.
Follows TransportKnobs.cpp lines 34-146. -/
def parseKnobEntry (paramId : Nat) (val : FollyDynamic) : Option (Nat × Nat) :=
  match val with
  | .bool b => some (paramId, if b then 1 else 0)
  | .int i =>
      -- folly::to<uint64_t> of a negative value throws, failing the parse
      if i < 0 then none else some (paramId, i.toNat)
  | .str s =>
      if paramId = CC_ALGORITHM_KNOB then
        match congestionControlStrToType s with
        | some cctype => some (paramId, cctype)
        | none => none
      else if paramId = STARTUP_RTT_FACTOR_KNOB ∨ paramId = DEFAULT_RTT_FACTOR_KNOB then
        match splitAtFirst '/' s with
        | none => none
        | some (ns, ds) =>
            let numerator : Int := (tryToInt ns).getD kKnobFractionMax
            let denominator : Int := (tryToInt ds).getD kKnobFractionMax
            -- the C++ stores these in uint64_t, so a negative parse wraps to a
            -- huge value; it is then rejected by the >= kKnobFractionMax check
            -- exactly as the <= 0 check rejects it here
            if numerator ≤ 0 || denominator ≤ 0 ||
                numerator ≥ kKnobFractionMax || denominator ≥ kKnobFractionMax then
              none
            else some (paramId, (numerator * kKnobFractionMax + denominator).toNat)
      else if paramId = AUTO_BACKGROUND_MODE_KNOB then
        match splitExact2 ',' s with
        | none => none
        | some (ps, us) =>
            let priorityThreshold : Int := (tryToInt ps).getD (-1)
            let utilizationPercent : Int := (tryToInt us).getD (-1)
            if priorityThreshold < 0 || priorityThreshold > kDefaultMaxPriority ||
                utilizationPercent < 25 || utilizationPercent > 100 then
              none
            else
              some (paramId,
                (priorityThreshold * kPriorityThresholdKnobMultiplier +
                  utilizationPercent).toNat)
      else none
  | .other => none

/-- The main loop of `parseTransportKnobs`: processes the entries in
order, failing the whole parse on the first bad entry. -/
def parseKnobsGo : List (Nat × FollyDynamic) → Option (List (Nat × Nat))
  | [] => some []
  | (paramId, val) :: rest =>
      match parseKnobEntry paramId val with
      | none => none
      | some kv => (parseKnobsGo rest).map (kv :: ·)

/-- `compareTransportKnobParam` (TransportKnobs.cpp lines 14-22) as the
non-strict total order the sorted output satisfies: by id, then by value. -/
def knobLe (a b : Nat × Nat) : Bool := a.1 < b.1 || (a.1 == b.1 && a.2 ≤ b.2)

/-- `parseTransportKnobs` (TransportKnobs.cpp lines 26-155).  The JSON map
is embedded as the list of its (numeric-key, value) entries; keys that do
not parse as unsigned integers make `folly::parseJson`/`folly::to` throw,
which the source catches and maps to `none`, so they are outside this
embedding's input space. -/
def parseTransportKnobs (params : List (Nat × FollyDynamic)) :
    Option (List (Nat × Nat)) :=
  (parseKnobsGo params).map (List.mergeSort · knobLe)

/-! ## Concrete fixtures and scenario states

These are inputs for the concrete scenarios and witnesses; their field
values are test data, not facts about the source. -/

/-- A transport-settings fixture. -/
def defaultTransportSettings : TransportSettingsModel :=
  { rxPacketsBeforeAckInitThreshold := 10
    rxPacketsBeforeAckAfterInit := 10
    rxPacketsBeforeAckBeforeInit := 2
    advertisedInitialMaxStreamsBidi := 100
    advertisedInitialMaxStreamsUni := 100
    disableMigration := false
    canIgnorePathMTU := false
    d6dEnabled := false }

/-- A freshly constructed server-side stream manager.  Modelled from the
spec: the four quartets' initial stream ids follow the parity encoding
(client-bidi 0, server-bidi 1, client-uni 2, server-uni 3), and each
next-acceptable cursor starts at its quartet's initial id. -/
def initialServerStreamManager : QuicStreamManagerState :=
  { nodeType := .Server
    streams := []
    streamPriorityLevels := []
    openBidirectionalLocalStreams := []
    openUnidirectionalLocalStreams := []
    openBidirectionalPeerStreams := []
    openUnidirectionalPeerStreams := []
    newPeerStreams := []
    nextAcceptableLocalBidirectionalStreamId := 1
    nextAcceptableLocalUnidirectionalStreamId := 3
    nextAcceptablePeerBidirectionalStreamId := 0
    nextAcceptablePeerUnidirectionalStreamId := 2
    maxLocalBidirectionalStreamId := 1
    maxLocalUnidirectionalStreamId := 3
    maxRemoteBidirectionalStreamId := 0
    maxRemoteUnidirectionalStreamId := 2
    initialLocalBidirectionalStreamId := 1
    initialLocalUnidirectionalStreamId := 3
    initialRemoteBidirectionalStreamId := 0
    initialRemoteUnidirectionalStreamId := 2
    maxLocalBidirectionalStreamIdIncreased := false
    maxLocalUnidirectionalStreamIdIncreased := false
    remoteBidirectionalStreamLimitUpdate := none
    remoteUnidirectionalStreamLimitUpdate := none
    streamLimitWindowingFraction := 2
    isAppIdle := false
    numControlStreams := 0
    transportSettings := defaultTransportSettings }

/-- The stream-limit windowing scenario of claim C6 (spec section 8,
scenario 5): `advertisedInitialMaxStreamsBidi = 100`, windowing fraction 4;
open the 100 client-bidi streams 0, 4, ..., 396 through `getStream`, close
streams 0, 4, ..., 96 through `removeClosedStream`, then read the pending
MAX_STREAMS update twice. -/
def c6Scenario : Except QuicError ((Option Nat × Option Nat) × QuicStreamManagerState) := do
  let m ← refreshTransportSettings initialServerStreamManager defaultTransportSettings
  let m := setStreamLimitWindowingFraction m 4
  let m ← (List.range 100).foldlM (fun m i => do
      let r ← getStream m (i * kStreamIncrement)
      pure r.2) m
  let m ← (List.range 25).foldlM (fun m i =>
      removeClosedStream m (i * kStreamIncrement)) m
  let (firstRead, m) := remoteBidirectionalStreamLimitUpdateGet m
  let (secondRead, m) := remoteBidirectionalStreamLimitUpdateGet m
  pure ((firstRead, secondRead), m)

/-- An ack-state fixture (all counters and latches clear). -/
def defaultAckState : AckState :=
  { nextPacketNum := 0
    largestReceivedPacketNum := none
    largestReceivedAtLastCloseSent := none
    numRxPacketsRecvd := 0
    numNonRxPacketsRecvd := 0
    needsToSendAckImmediately := false
    tolerance := none
    ignoreReorder := false
    largestAckScheduled := none }

/-- A connection fixture. -/
def testConn : ServerConn :=
  { version := some .MVFST
    peerAddress := { isV4 := true, ip := 1000, port := 1 }
    transportSettings := defaultTransportSettings
    ackStates := ⟨defaultAckState, defaultAckState, defaultAckState⟩
    pendingEvents :=
      { scheduleAckTimeout := false, pathChallenge := none,
        schedulePathValidationTimeout := false, closeTransport := false,
        cancelPingTimeout := false, frames := [] }
    lossState := ⟨0, 0, 0, kDefaultMinRtt, 0⟩
    migrationState := ⟨0, [], none⟩
    outstandingPathValidation := none
    pathValidationLimiter := none
    congestionController := some 7
    streamManager := initialServerStreamManager
    readCodec :=
      { clientConnectionId := some 42, initialReadCipher := true,
        initialHeaderCipher := true, zeroRttReadCipher := false,
        zeroRttHeaderCipher := false, oneRttReadCipher := false,
        oneRttHeaderCipher := false, handshakeReadCipher := false,
        handshakeHeaderCipher := false }
    oneRttWriteCipher := false
    oneRttWriteHeaderCipher := false
    usedZeroRtt := false
    pacingKeyEstablished := false
    writableBytesLimit := none
    sentHandshakeDone := false
    flowControlState := ⟨0, 0, 0, 0⟩
    datagramState := ⟨0, 0⟩
    peerIdleTimeout := 0
    peerAckDelayExponent := 3
    peerMinAckDelay := none
    peerMaxUdpPayloadSize := 1452
    peerActiveConnectionIdLimit := 2
    udpSendPacketLen := 1252
    d6d := ⟨1200, 1452, 30, 1, .DISABLED, .DISABLED, 0, false⟩ }

/-- A handshake-driver snapshot fixture that yields the 1-RTT write cipher
together with (empty, hence valid) client transport parameters. -/
def c1Snapshot : HandshakeLayerSnapshot :=
  { zeroRttReadCipher := false
    zeroRttReadHeaderCipher := false
    oneRttWriteCipher := true
    oneRttReadCipher := false
    oneRttWriteHeaderCipher := true
    oneRttReadHeaderCipher := false
    handshakeReadCipher := false
    handshakeReadHeaderCipher := false
    clientTransportParams := some
      { preferredAddress := none, origConnId := none, statelessResetToken := none,
        retrySourceConnId := none, maxData := none, maxStreamDataBidiLocal := none,
        maxStreamDataBidiRemote := none, maxStreamDataUni := none,
        maxStreamsBidi := none, maxStreamsUni := none, idleTimeout := none,
        ackDelayExponent := none, packetSize := none,
        activeConnectionIdLimit := none, d6dBasePMTU := none,
        d6dRaiseTimeout := none, d6dProbeTimeout := none, minAckDelay := none,
        maxAckDelay := none, maxDatagramFrameSize := none,
        initialSourceConnId := none }
    handshakeDone := false }

/-- The connection after a first `updateHandshakeState` call on `testConn`
with `c1Snapshot` (which succeeds and installs the 1-RTT write cipher). -/
def c1AfterFirst : ServerConn :=
  match updateHandshakeState testConn c1Snapshot 0 with
  | .ok conn => conn
  | .error _ => testConn

/-- Iterated `updateAckSendStateOnRecvPacket` over a sequence of
retransmittable packets, each given as (pktOutOfOrder, pktHasCryptoData). -/
def recvRtxSeq (conn : ServerConn) (ackState : AckState)
    (pkts : List (Bool × Bool)) : ServerConn × AckState :=
  pkts.foldl (fun p pkt => updateAckSendStateOnRecvPacket p.1 p.2 pkt.1 true pkt.2)
    (conn, ackState)

/-- The stream manager after `refreshTransportSettings` (so that the
remote max-stream ids are in place): the C5 counterexample state. -/
def c5Mgr : QuicStreamManagerState :=
  match refreshTransportSettings initialServerStreamManager defaultTransportSettings with
  | .ok m => m
  | .error _ => initialServerStreamManager

deriving instance DecidableEq for Except

/-- A concrete manager state for the C6 witness: a server with four open
client-bidi peer streams 0, 4, 8, 12 (stream 0 allocated), advertised
initial max 4, windowing fraction 4, remote max-stream id 16 and
next-acceptable cursor 16. -/
def c6WitnessMgr : QuicStreamManagerState :=
  { initialServerStreamManager with
    streams := [0]
    streamPriorityLevels := [(0, kDefaultPriorityLevel)]
    openBidirectionalPeerStreams := [0, 4, 8, 12]
    nextAcceptablePeerBidirectionalStreamId := 16
    maxRemoteBidirectionalStreamId := 16
    streamLimitWindowingFraction := 4
    transportSettings :=
      { defaultTransportSettings with advertisedInitialMaxStreamsBidi := 4 } }

/-- A concrete manager state for the unidirectional C6 witness: a server
with four open client-uni peer streams 2, 6, 10, 14 (stream 2 allocated),
advertised initial max 4, windowing fraction 4, remote max-stream id 18
and next-acceptable cursor 18. -/
def c6UniWitnessMgr : QuicStreamManagerState :=
  { initialServerStreamManager with
    streams := [2]
    streamPriorityLevels := [(2, kDefaultPriorityLevel)]
    openUnidirectionalPeerStreams := [2, 6, 10, 14]
    nextAcceptablePeerUnidirectionalStreamId := 18
    maxRemoteUnidirectionalStreamId := 18
    streamLimitWindowingFraction := 4
    transportSettings :=
      { defaultTransportSettings with advertisedInitialMaxStreamsUni := 4 } }

/-- Fixture for C2: six successive intentional=false migrations from
`testConn`, each to a fresh peer address. -/
def c2Steps : List (SocketAddress × Bool × Nat × Nat) :=
  (List.range 6).map (fun i => ({ isV4 := true, ip := 2000 + i * 1000, port := 1 }, false, 99, 5))

/-- Fixture for C2: the connection state after the six migrations of
`c2Steps` (extracted from the successful `migrateSeq` run). -/
def c2AfterSix : ServerConn :=
  match migrateSeq testConn c2Steps with
  | .ok c => c
  | .error _ => testConn

/-! # Theorems -/

/-! ## C3/C7 — RTT estimation -/

/-- Claim C3.  For every prior loss state and every (rttSample, ackDelay)
pair, `updateRtt` sets `mrtt` to `min(mrtt, rttSample)` and `maxAckDelay`
to `max(maxAckDelay, ackDelay)`; it subtracts `ackDelay` from the sample
exactly when `rttSample > ackDelay` and (`rttSample > mrtt + ackDelay` or
`mrtt = defaultMinRtt`); on the first sample (`srtt = 0`) it seeds
`srtt = sample` and `rttvar = sample / 2`, and otherwise applies the IIR
updates `rttvar ← rttvar·(β−1)/β + |srtt − sample|/β` and
`srtt ← srtt·(α−1)/α + sample/α` with α = 8 and β = 4. -/
theorem updateRtt_spec_C3 (ls : LossState) (rttSample ackDelay : Nat) :
    (updateRtt ls rttSample ackDelay).mrtt = Nat.min ls.mrtt rttSample ∧
    (updateRtt ls rttSample ackDelay).maxAckDelay = Nat.max ls.maxAckDelay ackDelay ∧
    adjustedRttSample ls rttSample ackDelay =
      (if rttSample > ackDelay ∧ (rttSample > ls.mrtt + ackDelay ∨ ls.mrtt = kDefaultMinRtt)
       then rttSample - ackDelay else rttSample) ∧
    (ls.srtt = 0 →
      (updateRtt ls rttSample ackDelay).srtt = adjustedRttSample ls rttSample ackDelay ∧
      (updateRtt ls rttSample ackDelay).rttvar =
        adjustedRttSample ls rttSample ackDelay / 2) ∧
    (ls.srtt ≠ 0 →
      (updateRtt ls rttSample ackDelay).rttvar =
        ls.rttvar * (kRttBeta - 1) / kRttBeta +
          (if ls.srtt > adjustedRttSample ls rttSample ackDelay
           then ls.srtt - adjustedRttSample ls rttSample ackDelay
           else adjustedRttSample ls rttSample ackDelay - ls.srtt) / kRttBeta ∧
      (updateRtt ls rttSample ackDelay).srtt =
        ls.srtt * (kRttAlpha - 1) / kRttAlpha +
          adjustedRttSample ls rttSample ackDelay / kRttAlpha) := by
  unfold updateRtt adjustedRttSample
  dsimp only
  refine ⟨?_, ?_, ?_, ?_, ?_⟩
  · split <;> rfl
  · split <;> rfl
  · simp only [Bool.and_eq_true, Bool.or_eq_true, decide_eq_true_eq, beq_iff_eq]
    rcases Nat.le_total ls.mrtt rttSample with h | h <;>
      simp only [Nat.min_eq_left h, Nat.min_eq_right h] <;> split <;> split <;>
      first
      | rfl
      | (exfalso; omega)
  · intro h; simp [h]
  · intro h; simp [h]

/-- Witness for C3: both branches of the claim exercised at concrete
inputs — a first sample (seeding, with the ack delay subtracted because
`mrtt` is still the default) and a later sample (IIR update). -/
theorem updateRtt_spec_C3_witness :
    (updateRtt ⟨0, 0, 0, kDefaultMinRtt, 0⟩ 100 10).srtt = 90 ∧
    (updateRtt ⟨0, 0, 0, kDefaultMinRtt, 0⟩ 100 10).rttvar = 45 ∧
    (updateRtt ⟨80, 80, 40, 50, 0⟩ 100 0).srtt = 82 := by
  refine ⟨?_, ?_, ?_⟩
  · have h := (updateRtt_spec_C3 ⟨0, 0, 0, kDefaultMinRtt, 0⟩ 100 10).2.2.2.1 (by decide)
    rw [h.1]; decide
  · have h := (updateRtt_spec_C3 ⟨0, 0, 0, kDefaultMinRtt, 0⟩ 100 10).2.2.2.1 (by decide)
    rw [h.2]; decide
  · have h := (updateRtt_spec_C3 ⟨80, 80, 40, 50, 0⟩ 100 0).2.2.2.2 (by decide)
    rw [h.2]; decide

/-- The truncating IIR step moves its output towards the sample up to the
1-unit slack lost to the two integer divisions. -/
theorem iir_dist_le (s x : Nat) : Nat.dist (s * 7 / 8 + x / 8) x ≤ Nat.dist s x + 1 := by
  have h1 := Nat.div_add_mod (s * 7) 8
  have h2 := Nat.div_add_mod x 8
  have m1 : s * 7 % 8 < 8 := Nat.mod_lt _ (by norm_num)
  have m2 : x % 8 < 8 := Nat.mod_lt _ (by norm_num)
  simp only [Nat.dist] at *
  omega

/-- Counterexample to claim C7 as stated: with `srtt = 1 µs` and an
(adjusted) sample of `1 µs`, the truncating divisions give
`srtt' = 1·7/8 + 1/8 = 0`, so the distance to the sample grows from 0
to 1: `|srtt_after − sample| ≤ |srtt_before − sample|` fails. -/
theorem updateRtt_C7_counterexample :
    ¬ (Nat.dist (updateRtt ⟨1, 1, 0, 5, 0⟩ 1 0).srtt (adjustedRttSample ⟨1, 1, 0, 5, 0⟩ 1 0) ≤
        Nat.dist (LossState.srtt ⟨1, 1, 0, 5, 0⟩) (adjustedRttSample ⟨1, 1, 0, 5, 0⟩ 1 0)) := by
  decide

/-- Claim C7, amended: because srtt is stored in integer microseconds and
the α = 1/8 IIR uses truncating division, the distance from the smoothed
RTT to the (ack-delay-adjusted) sample can grow by at most 1 µs:
`|srtt_after − sample| ≤ |srtt_before − sample| + 1`; and
`mrtt_after ≤ mrtt_before` holds exactly. -/
theorem updateRtt_C7_amended (ls : LossState) (rttSample ackDelay : Nat) :
    Nat.dist (updateRtt ls rttSample ackDelay).srtt (adjustedRttSample ls rttSample ackDelay) ≤
      Nat.dist ls.srtt (adjustedRttSample ls rttSample ackDelay) + 1 ∧
    (updateRtt ls rttSample ackDelay).mrtt ≤ ls.mrtt := by
  constructor
  · unfold updateRtt adjustedRttSample
    dsimp only
    split
    · simp [Nat.dist]
    · show Nat.dist (ls.srtt * (kRttAlpha - 1) / kRttAlpha + _ / kRttAlpha) _ ≤ _
      exact iir_dist_le ls.srtt _
  · unfold updateRtt
    dsimp only
    split <;> exact Nat.min_le_left _ _

/-! ## C10 — `updateAckStateOnAckTimeout` touches only the AppData ack
state and the ack-timeout flag -/

/-- Claim C10.  `updateAckStateOnAckTimeout` latches the AppData
`needsToSendAckImmediately`, zeroes the AppData rx/non-rx counters, clears
`pendingEvents.scheduleAckTimeout`, and leaves the Initial and Handshake
ack states, every other AppData ack-state field, every other pending-events
flag, and every other connection field unchanged. -/
theorem updateAckStateOnAckTimeout_C10 (conn : ServerConn) :
    (updateAckStateOnAckTimeout conn).ackStates.appDataAckState =
      { conn.ackStates.appDataAckState with
        needsToSendAckImmediately := true
        numRxPacketsRecvd := 0
        numNonRxPacketsRecvd := 0 } ∧
    (updateAckStateOnAckTimeout conn).pendingEvents =
      { conn.pendingEvents with scheduleAckTimeout := false } ∧
    (updateAckStateOnAckTimeout conn).ackStates.initialAckState =
      conn.ackStates.initialAckState ∧
    (updateAckStateOnAckTimeout conn).ackStates.handshakeAckState =
      conn.ackStates.handshakeAckState ∧
    updateAckStateOnAckTimeout conn =
      { conn with
        ackStates := (updateAckStateOnAckTimeout conn).ackStates
        pendingEvents := (updateAckStateOnAckTimeout conn).pendingEvents } :=
  ⟨rfl, rfl, rfl, rfl, rfl⟩

/-! ## C4 — ACK elicitation on packet receive -/

theorem step_tolerance_preserved (conn : ServerConn) (a : AckState) (oo rtx cr : Bool) :
    (updateAckSendStateOnRecvPacket conn a oo rtx cr).2.tolerance = a.tolerance := by
  unfold updateAckSendStateOnRecvPacket
  dsimp only
  repeat' split
  all_goals rfl

theorem step_latch_monotone (conn : ServerConn) (a : AckState) (oo rtx cr : Bool)
    (h : a.needsToSendAckImmediately = true) :
    (updateAckSendStateOnRecvPacket conn a oo rtx cr).2.needsToSendAckImmediately = true := by
  unfold updateAckSendStateOnRecvPacket
  dsimp only
  repeat' split
  all_goals simp_all

theorem step_rtx_progress (conn : ServerConn) (a : AckState) (oo cr : Bool) (tol : Nat)
    (htol : a.tolerance = some tol) :
    (updateAckSendStateOnRecvPacket conn a oo true cr).2.needsToSendAckImmediately = true ∨
    ((updateAckSendStateOnRecvPacket conn a oo true cr).2.needsToSendAckImmediately = false ∧
     (updateAckSendStateOnRecvPacket conn a oo true cr).2.numRxPacketsRecvd +
       (updateAckSendStateOnRecvPacket conn a oo true cr).2.numNonRxPacketsRecvd =
       a.numRxPacketsRecvd + a.numNonRxPacketsRecvd + 1 ∧
     (updateAckSendStateOnRecvPacket conn a oo true cr).2.numRxPacketsRecvd +
       (updateAckSendStateOnRecvPacket conn a oo true cr).2.numNonRxPacketsRecvd < tol) := by
  unfold updateAckSendStateOnRecvPacket selectedAckThreshold
  rw [htol]
  dsimp only
  repeat' split
  all_goals simp_all
  all_goals omega

theorem recvRtxSeq_cons (conn : ServerConn) (a : AckState) (p : Bool × Bool)
    (pkts : List (Bool × Bool)) :
    recvRtxSeq conn a (p :: pkts) =
      recvRtxSeq (updateAckSendStateOnRecvPacket conn a p.1 true p.2).1
        (updateAckSendStateOnRecvPacket conn a p.1 true p.2).2 pkts := rfl

theorem recvRtxSeq_latch_mono (pkts : List (Bool × Bool)) :
    ∀ (conn : ServerConn) (a : AckState), a.needsToSendAckImmediately = true →
    (recvRtxSeq conn a pkts).2.needsToSendAckImmediately = true := by
  induction pkts with
  | nil => intro conn a h; exact h
  | cons p pkts ih =>
    intro conn a h
    rw [recvRtxSeq_cons]
    exact ih _ _ (step_latch_monotone _ _ _ _ _ h)

theorem recvRtxSeq_invariant (pkts : List (Bool × Bool)) :
    ∀ (conn : ServerConn) (a : AckState) (tol : Nat), a.tolerance = some tol →
    (recvRtxSeq conn a pkts).2.needsToSendAckImmediately = true ∨
    ((recvRtxSeq conn a pkts).2.numRxPacketsRecvd +
       (recvRtxSeq conn a pkts).2.numNonRxPacketsRecvd =
       a.numRxPacketsRecvd + a.numNonRxPacketsRecvd + pkts.length ∧
     (0 < pkts.length →
       (recvRtxSeq conn a pkts).2.numRxPacketsRecvd +
         (recvRtxSeq conn a pkts).2.numNonRxPacketsRecvd < tol)) := by
  induction pkts with
  | nil => intro conn a tol htol; right; exact ⟨by simp [recvRtxSeq], by simp⟩
  | cons p pkts ih =>
    intro conn a tol htol
    rw [recvRtxSeq_cons]
    rcases step_rtx_progress conn a p.1 p.2 tol htol with hlatch | ⟨hno, hsum, hlt⟩
    · left; exact recvRtxSeq_latch_mono _ _ _ hlatch
    · have htol' : (updateAckSendStateOnRecvPacket conn a p.1 true p.2).2.tolerance = some tol := by
        rw [step_tolerance_preserved]; exact htol
      rcases ih (updateAckSendStateOnRecvPacket conn a p.1 true p.2).1
          (updateAckSendStateOnRecvPacket conn a p.1 true p.2).2 tol htol' with h | ⟨h2, h3⟩
      · left; exact h
      · right
        constructor
        · rw [h2, hsum]; simp; omega
        · intro _
          rcases Nat.eq_zero_or_pos pkts.length with hz | hpos
          · rw [h2, hz]; omega
          · exact h3 hpos

theorem updateAckSendStateOnRecvPacket_C4 :
    (∀ (conn : ServerConn) (a : AckState) (oo cr : Bool),
      (cr = true ∨ (oo = true ∧ a.ignoreReorder = false) ∨
        a.numRxPacketsRecvd + 1 + a.numNonRxPacketsRecvd ≥
          selectedAckThreshold conn.transportSettings a true) →
      (updateAckSendStateOnRecvPacket conn a oo true cr).2.needsToSendAckImmediately = true ∧
      (updateAckSendStateOnRecvPacket conn a oo true cr).1.pendingEvents.scheduleAckTimeout
        = false) ∧
    (∀ (conn : ServerConn) (a : AckState) (oo rtx cr : Bool),
      (updateAckSendStateOnRecvPacket conn a oo rtx cr).2.needsToSendAckImmediately = true →
      (updateAckSendStateOnRecvPacket conn a oo rtx cr).2.numRxPacketsRecvd = 0 ∧
      (updateAckSendStateOnRecvPacket conn a oo rtx cr).2.numNonRxPacketsRecvd = 0) ∧
    (∀ (conn : ServerConn) (a : AckState) (tol : Nat) (pkts : List (Bool × Bool)),
      a.tolerance = some tol →
      pkts.length ≥ Nat.max tol 1 →
      (recvRtxSeq conn a pkts).2.needsToSendAckImmediately = true) := by
  refine ⟨?_, ?_, ?_⟩
  · intro conn a oo cr h
    unfold updateAckSendStateOnRecvPacket
    dsimp only
    rcases h with hc | ⟨ho, hi⟩ | hs
    · subst hc; constructor <;> (repeat' split) <;> simp_all
    · subst ho; constructor <;> (repeat' split) <;> simp_all
    · constructor <;> (repeat' split) <;> simp_all
  · intro conn a oo rtx cr h
    revert h
    unfold updateAckSendStateOnRecvPacket
    dsimp only
    repeat' split
    all_goals simp_all
  · intro conn a tol pkts htol hlen
    have hmax1 : tol ≤ Nat.max tol 1 := Nat.le_max_left _ _
    have hmax2 : 1 ≤ Nat.max tol 1 := Nat.le_max_right _ _
    rcases recvRtxSeq_invariant pkts conn a tol htol with h | ⟨h2, h3⟩
    · exact h
    · exfalso
      have hpos : 0 < pkts.length := by omega
      have := h3 hpos
      omega

/-- Witness for C4: a crypto-carrying retransmittable packet latches the
immediate-ACK flag and zeroes the counters at a concrete state, and with an
explicit tolerance of 2 the latch is set within 2 plain retransmittable
receives. -/
theorem updateAckSendStateOnRecvPacket_C4_witness :
    (updateAckSendStateOnRecvPacket testConn defaultAckState false true
      true).2.needsToSendAckImmediately = true ∧
    (updateAckSendStateOnRecvPacket testConn defaultAckState false true
      true).2.numRxPacketsRecvd = 0 ∧
    (recvRtxSeq testConn { defaultAckState with tolerance := some 2 }
      [(false, false), (false, false)]).2.needsToSendAckImmediately = true :=
  ⟨(updateAckSendStateOnRecvPacket_C4.1 testConn defaultAckState false true
      (Or.inl rfl)).1,
   (updateAckSendStateOnRecvPacket_C4.2.1 testConn defaultAckState false true true
      (by decide)).1,
   updateAckSendStateOnRecvPacket_C4.2.2 testConn
     { defaultAckState with tolerance := some 2 } 2
     [(false, false), (false, false)] rfl (by decide)⟩

/-! ## C5 — implicit opening of peer streams -/

/-- `kStreamIncrement` as a rewrite rule for arithmetic. -/
theorem kStreamIncrement_eq : kStreamIncrement = 4 := rfl

theorem openedStreamIdsGo_fuel_irrel (streamId : Nat) :
    ∀ f1 f2 start, streamId + 1 - start ≤ f1 → streamId + 1 - start ≤ f2 →
    openedStreamIdsGo streamId f1 start = openedStreamIdsGo streamId f2 start := by
  intro f1
  induction f1 with
  | zero =>
    intro f2 start h1 h2
    cases f2 with
    | zero => rfl
    | succ f2 =>
      simp only [openedStreamIdsGo]
      rw [if_neg (by omega)]
  | succ f1 ih =>
    intro f2 start h1 h2
    cases f2 with
    | zero =>
      simp only [openedStreamIdsGo]
      rw [if_neg (by omega)]
    | succ f2 =>
      simp only [openedStreamIdsGo]
      by_cases hle : start ≤ streamId
      · rw [if_pos hle, if_pos hle]
        rw [ih f2 (start + kStreamIncrement)
          (by simp only [kStreamIncrement_eq]; omega)
          (by simp only [kStreamIncrement_eq]; omega)]
      · rw [if_neg hle, if_neg hle]

theorem openedStreamIds_unfold (start streamId : Nat) :
    openedStreamIds start streamId =
      if start ≤ streamId then
        start :: openedStreamIds (start + kStreamIncrement) streamId
      else [] := by
  unfold openedStreamIds
  by_cases hle : start ≤ streamId
  · rw [if_pos hle]
    have h1 : streamId + 1 - start = (streamId - start) + 1 := by omega
    rw [h1]
    simp only [openedStreamIdsGo]
    rw [if_pos hle]
    congr 1
    exact openedStreamIdsGo_fuel_irrel streamId _ _ _
      (by simp only [kStreamIncrement_eq]; omega)
      (by simp only [kStreamIncrement_eq]; omega)
  · rw [if_neg hle]
    have h1 : streamId + 1 - start = 0 := by omega
    rw [h1]
    rfl

theorem openedStreamIds_length (start streamId : Nat) (h : start ≤ streamId) :
    (openedStreamIds start streamId).length = (streamId - start) / kStreamIncrement + 1 := by
  have main : ∀ fuel start, streamId + 1 - start ≤ fuel → start ≤ streamId →
      (openedStreamIdsGo streamId fuel start).length =
        (streamId - start) / kStreamIncrement + 1 := by
    intro fuel
    induction fuel with
    | zero => intro start h1 h2; omega
    | succ fuel ih =>
      intro start h1 h2
      simp only [openedStreamIdsGo]
      rw [if_pos h2]
      by_cases h3 : start + kStreamIncrement ≤ streamId
      · rw [List.length_cons, ih (start + kStreamIncrement)
          (by simp only [kStreamIncrement_eq]; omega) h3]
        simp only [kStreamIncrement_eq] at *
        omega
      · have hempty : openedStreamIdsGo streamId fuel (start + kStreamIncrement) = [] := by
          cases fuel with
          | zero => rfl
          | succ fuel =>
            simp only [openedStreamIdsGo]
            rw [if_neg (by omega)]
        rw [hempty]
        simp only [List.length_cons, List.length_nil, kStreamIncrement_eq] at *
        omega
  exact main _ start (by omega) h

theorem openPeerStreamIfNotClosed_ok (streamId : Nat) (openStreams : List Nat)
    (next maxId : Nat) (newStreams : List Nat)
    (h1 : ¬ streamId < next) (h2 : ¬ streamId ≥ maxId) :
    openPeerStreamIfNotClosed streamId openStreams next maxId newStreams =
      (.NO_ERROR, openStreams ++ openedStreamIds next streamId,
       streamId + kStreamIncrement, newStreams ++ openedStreamIds next streamId) := by
  unfold openPeerStreamIfNotClosed
  rw [if_neg h1, if_neg h2]

theorem openPeerStreamIfNotClosed_limit (streamId : Nat) (openStreams : List Nat)
    (next maxId : Nat) (newStreams : List Nat)
    (h1 : ¬ streamId < next) (h2 : streamId ≥ maxId) :
    openPeerStreamIfNotClosed streamId openStreams next maxId newStreams =
      (.STREAM_LIMIT_EXCEEDED, openStreams, next, newStreams) := by
  unfold openPeerStreamIfNotClosed
  rw [if_neg h1, if_pos h2]

/-- Claim C5, amended.  For a peer stream id of correct parity at or above
the next-acceptable cursor (on a server: a client-initiated id not yet
seen), `getOrCreatePeerStream`:
* below the locally advertised max, opens exactly
  `(id − prev_next)/4 + 1` new streams — one more than the claimed
  `⌈(id − prev_next)/4⌉ = (id − prev_next)/4` (the requested id itself is
  also opened; see the counterexample) — adding each to the open-set and to
  `newPeerStreams`, and bumps the next-acceptable cursor to `id + 4`;
* at or above the locally advertised max, raises STREAM_LIMIT_ERROR and
  opens nothing (the error carries no state, and the thrown exception
  unwinds before any mutation). -/
theorem getOrCreatePeerStream_C5_amended (m : QuicStreamManagerState) (streamId : Nat)
    (hnode : m.nodeType = .Server)
    (hparity : isClientStream streamId = true)
    (hnostate : m.streams.contains streamId = false)
    (hnoprio : (m.streamPriorityLevels.map Prod.fst).contains streamId = false)
    (hnoopen : (if isUnidirectionalStream streamId then m.openUnidirectionalPeerStreams
        else m.openBidirectionalPeerStreams).contains streamId = false)
    (hnext : (if isUnidirectionalStream streamId
        then m.nextAcceptablePeerUnidirectionalStreamId
        else m.nextAcceptablePeerBidirectionalStreamId) ≤ streamId) :
    (streamId < (if isUnidirectionalStream streamId then m.maxRemoteUnidirectionalStreamId
        else m.maxRemoteBidirectionalStreamId) →
      ∃ m', getOrCreatePeerStream m streamId = .ok (some streamId, m') ∧
        m'.newPeerStreams = m.newPeerStreams ++
          openedStreamIds (if isUnidirectionalStream streamId
            then m.nextAcceptablePeerUnidirectionalStreamId
            else m.nextAcceptablePeerBidirectionalStreamId) streamId ∧
        (if isUnidirectionalStream streamId then m'.openUnidirectionalPeerStreams
            else m'.openBidirectionalPeerStreams) =
          (if isUnidirectionalStream streamId then m.openUnidirectionalPeerStreams
            else m.openBidirectionalPeerStreams) ++
          openedStreamIds (if isUnidirectionalStream streamId
            then m.nextAcceptablePeerUnidirectionalStreamId
            else m.nextAcceptablePeerBidirectionalStreamId) streamId ∧
        (if isUnidirectionalStream streamId then m'.nextAcceptablePeerUnidirectionalStreamId
            else m'.nextAcceptablePeerBidirectionalStreamId) = streamId + kStreamIncrement ∧
        (openedStreamIds (if isUnidirectionalStream streamId
            then m.nextAcceptablePeerUnidirectionalStreamId
            else m.nextAcceptablePeerBidirectionalStreamId) streamId).length =
          (streamId - (if isUnidirectionalStream streamId
            then m.nextAcceptablePeerUnidirectionalStreamId
            else m.nextAcceptablePeerBidirectionalStreamId)) / kStreamIncrement + 1) ∧
    (streamId ≥ (if isUnidirectionalStream streamId then m.maxRemoteUnidirectionalStreamId
        else m.maxRemoteBidirectionalStreamId) →
      getOrCreatePeerStream m streamId =
        .error ⟨.STREAM_LIMIT_ERROR, "Exceeded stream limit."⟩) := by
  have hparity2 : streamId % 2 = 0 := by simpa [isClientStream] using hparity
  have hserver : isServerStream streamId = false := by
    simp [isServerStream]
    omega
  cases huni : isUnidirectionalStream streamId
  case true =>
    simp only [huni, reduceIte] at hnoopen hnext ⊢
    have hlt : ¬ streamId < m.nextAcceptablePeerUnidirectionalStreamId := by omega
    constructor
    · intro hmax
      have hge : ¬ streamId ≥ m.maxRemoteUnidirectionalStreamId := by omega
      unfold getOrCreatePeerStream
      simp only [hnode, hparity, hserver, hnostate, hnoopen, huni, Bool.and_false,
        Bool.and_true, Bool.true_and, Bool.false_and, Bool.not_true, Bool.not_false,
        Bool.false_eq_true, reduceIte, beq_iff_eq, reduceCtorEq, if_false, if_true]
      rw [openPeerStreamIfNotClosed_ok streamId _ _ _ _ hlt hge]
      unfold addToStreamPriorityMap
      simp only [hnoprio, Bool.false_eq_true, reduceIte, Bind.bind, Except.bind]
      exact ⟨_, rfl, rfl, rfl, rfl, openedStreamIds_length _ _ hnext⟩
    · intro hmax
      unfold getOrCreatePeerStream
      simp only [hnode, hparity, hserver, hnostate, hnoopen, huni, Bool.and_false,
        Bool.and_true, Bool.true_and, Bool.false_and, Bool.not_true, Bool.not_false,
        Bool.false_eq_true, reduceIte, beq_iff_eq, reduceCtorEq, if_false, if_true]
      rw [openPeerStreamIfNotClosed_limit streamId _ _ _ _ hlt hmax]
  case false =>
    simp only [huni, Bool.false_eq_true, reduceIte] at hnoopen hnext ⊢
    have hlt : ¬ streamId < m.nextAcceptablePeerBidirectionalStreamId := by omega
    constructor
    · intro hmax
      have hge : ¬ streamId ≥ m.maxRemoteBidirectionalStreamId := by omega
      unfold getOrCreatePeerStream
      simp only [hnode, hparity, hserver, hnostate, hnoopen, huni, Bool.and_false,
        Bool.and_true, Bool.true_and, Bool.false_and, Bool.not_true, Bool.not_false,
        Bool.false_eq_true, reduceIte, beq_iff_eq, reduceCtorEq, if_false, if_true]
      rw [openPeerStreamIfNotClosed_ok streamId _ _ _ _ hlt hge]
      unfold addToStreamPriorityMap
      simp only [hnoprio, Bool.false_eq_true, reduceIte, Bind.bind, Except.bind]
      exact ⟨_, rfl, rfl, rfl, rfl, openedStreamIds_length _ _ hnext⟩
    · intro hmax
      unfold getOrCreatePeerStream
      simp only [hnode, hparity, hserver, hnostate, hnoopen, huni, Bool.and_false,
        Bool.and_true, Bool.true_and, Bool.false_and, Bool.not_true, Bool.not_false,
        Bool.false_eq_true, reduceIte, beq_iff_eq, reduceCtorEq, if_false, if_true]
      rw [openPeerStreamIfNotClosed_limit streamId _ _ _ _ hlt hmax]

/-- Counterexample to claim C5 as stated: on a fresh server manager
(`nextAcceptablePeerBidirectionalStreamId = 0`, advertised max 400),
`getOrCreatePeerStream` at id 0 opens exactly 1 stream (id 0 itself), but
the claimed count `⌈(0 − 0)/4⌉` is 0. -/
theorem getOrCreatePeerStream_C5_counterexample :
    ¬ ((match getOrCreatePeerStream c5Mgr 0 with
        | .ok p => p.2.newPeerStreams.length
        | .error _ => 0) =
       (0 - c5Mgr.nextAcceptablePeerBidirectionalStreamId) / kStreamIncrement) ∧
    c5Mgr.nextAcceptablePeerBidirectionalStreamId = 0 ∧
    c5Mgr.maxRemoteBidirectionalStreamId = 400 ∧
    (match getOrCreatePeerStream c5Mgr 0 with
     | .ok p => p.2.newPeerStreams.length
     | .error _ => 0) = 1 := by decide

/-- Witness for the amended C5: opening id 8 on a fresh server manager
opens the 3 streams 0, 4, 8 and bumps the cursor to 12; id 400 (the
advertised max) raises STREAM_LIMIT_ERROR. -/
theorem getOrCreatePeerStream_C5_witness :
    (∃ m', getOrCreatePeerStream c5Mgr 8 = .ok (some 8, m') ∧
       m'.newPeerStreams.length = 3 ∧
       m'.nextAcceptablePeerBidirectionalStreamId = 8 + kStreamIncrement) ∧
    getOrCreatePeerStream c5Mgr 400 =
      .error ⟨.STREAM_LIMIT_ERROR, "Exceeded stream limit."⟩ := by
  constructor
  · obtain ⟨m', hok, hnew, hopen, hnext, hlen⟩ :=
      (getOrCreatePeerStream_C5_amended c5Mgr 8 rfl (by decide) (by decide) (by decide)
        (by decide) (by decide)).1 (by decide)
    refine ⟨m', hok, ?_, ?_⟩
    · rw [hnew]; decide
    · have h8 : isUnidirectionalStream 8 = false := by decide
      simp only [h8, Bool.false_eq_true, reduceIte] at hnext
      exact hnext
  · exact (getOrCreatePeerStream_C5_amended c5Mgr 400 rfl (by decide) (by decide) (by decide)
      (by decide) (by decide)).2 (by decide)

/-! ## C6 — stream-limit windowing on closed-stream removal -/

/-- `usub64` is plain subtraction in the no-wrap range. -/
theorem usub64_eq (a b : Nat) (hb : b ≤ a) (ha : a < 2 ^ 64) : usub64 a b = a - b := by
  unfold usub64
  omega

theorem updateAppIdleState_fields (x : QuicStreamManagerState) :
    (updateAppIdleState x).remoteBidirectionalStreamLimitUpdate =
      x.remoteBidirectionalStreamLimitUpdate ∧
    (updateAppIdleState x).remoteUnidirectionalStreamLimitUpdate =
      x.remoteUnidirectionalStreamLimitUpdate ∧
    (updateAppIdleState x).openBidirectionalPeerStreams = x.openBidirectionalPeerStreams ∧
    (updateAppIdleState x).openUnidirectionalPeerStreams = x.openUnidirectionalPeerStreams ∧
    (updateAppIdleState x).maxRemoteBidirectionalStreamId = x.maxRemoteBidirectionalStreamId ∧
    (updateAppIdleState x).maxRemoteUnidirectionalStreamId =
      x.maxRemoteUnidirectionalStreamId := by
  unfold updateAppIdleState
  dsimp only
  repeat' split
  all_goals exact ⟨rfl, rfl, rfl, rfl, rfl, rfl⟩

set_option maxRecDepth 10000 in
/-- Claim C6.  For `removeClosedStream` on a peer stream — bidirectional or
unidirectional — in a well-formed manager state: the stream credit is
`initialStreamLimit − openableRemote − openPeerStreams.size()` computed
after erasing the stream from the (direction's) open-set, and the remote
max-streams limit for that direction is bumped by `streamCredit` with the
MAX_STREAMS-update side channel set exactly when
`streamCredit ≥ initialStreamLimit / windowingFraction`; and in the
concrete windowing scenario (advertised initial max 100, windowing
fraction 4, open peer streams 0, 4, ..., 396, close 0, 4, ..., 96) the
first `remoteBidirectionalStreamLimitUpdate` read yields 125 and the
second yields none.  The well-formedness hypotheses say the stream is
known (present in `streams` and the priority map), counts fit in
`uint64` without wrap-around, and the bumped limit stays below
`kMaxMaxStreams` — all invariants of reachable states. -/
theorem removeClosedStream_C6 :
    (∀ (m : QuicStreamManagerState) (streamId : Nat),
      m.nodeType = .Server →
      isClientStream streamId = true →
      isUnidirectionalStream streamId = false →
      m.streams.contains streamId = true →
      (m.streamPriorityLevels.map Prod.fst).contains streamId = true →
      m.transportSettings.advertisedInitialMaxStreamsBidi < 2 ^ 64 →
      openableRemoteBidirectionalStreams m +
          (m.openBidirectionalPeerStreams.filter (· ≠ streamId)).length ≤
          m.transportSettings.advertisedInitialMaxStreamsBidi →
      m.initialRemoteBidirectionalStreamId ≤ m.maxRemoteBidirectionalStreamId →
      m.maxRemoteBidirectionalStreamId < 2 ^ 64 →
      usub64 m.maxRemoteBidirectionalStreamId m.initialRemoteBidirectionalStreamId
            / kStreamIncrement +
          (m.transportSettings.advertisedInitialMaxStreamsBidi -
            openableRemoteBidirectionalStreams m -
            (m.openBidirectionalPeerStreams.filter (· ≠ streamId)).length) ≤
          kMaxMaxStreams →
      let size' := (m.openBidirectionalPeerStreams.filter (· ≠ streamId)).length
      let limit := m.transportSettings.advertisedInitialMaxStreamsBidi
      let window := limit / m.streamLimitWindowingFraction
      let openable := openableRemoteBidirectionalStreams m
      let credit := limit - openable - size'
      let maxStreams := usub64 m.maxRemoteBidirectionalStreamId
        m.initialRemoteBidirectionalStreamId / kStreamIncrement
      (credit ≥ window →
        ∃ m', removeClosedStream m streamId = .ok m' ∧
          m'.remoteBidirectionalStreamLimitUpdate = some (maxStreams + credit) ∧
          m'.openBidirectionalPeerStreams =
            m.openBidirectionalPeerStreams.filter (· ≠ streamId) ∧
          (0 < credit → m'.maxRemoteBidirectionalStreamId =
            (maxStreams + credit) * kStreamIncrement +
              m.initialRemoteBidirectionalStreamId)) ∧
      (credit < window →
        ∃ m', removeClosedStream m streamId = .ok m' ∧
          m'.remoteBidirectionalStreamLimitUpdate =
            m.remoteBidirectionalStreamLimitUpdate ∧
          m'.openBidirectionalPeerStreams =
            m.openBidirectionalPeerStreams.filter (· ≠ streamId) ∧
          m'.maxRemoteBidirectionalStreamId = m.maxRemoteBidirectionalStreamId)) ∧
    (∀ (m : QuicStreamManagerState) (streamId : Nat),
      m.nodeType = .Server →
      isClientStream streamId = true →
      isUnidirectionalStream streamId = true →
      m.streams.contains streamId = true →
      (m.streamPriorityLevels.map Prod.fst).contains streamId = true →
      m.transportSettings.advertisedInitialMaxStreamsUni < 2 ^ 64 →
      openableRemoteUnidirectionalStreams m +
          (m.openUnidirectionalPeerStreams.filter (· ≠ streamId)).length ≤
          m.transportSettings.advertisedInitialMaxStreamsUni →
      m.initialRemoteUnidirectionalStreamId ≤ m.maxRemoteUnidirectionalStreamId →
      m.maxRemoteUnidirectionalStreamId < 2 ^ 64 →
      usub64 m.maxRemoteUnidirectionalStreamId m.initialRemoteUnidirectionalStreamId
            / kStreamIncrement +
          (m.transportSettings.advertisedInitialMaxStreamsUni -
            openableRemoteUnidirectionalStreams m -
            (m.openUnidirectionalPeerStreams.filter (· ≠ streamId)).length) ≤
          kMaxMaxStreams →
      let size' := (m.openUnidirectionalPeerStreams.filter (· ≠ streamId)).length
      let limit := m.transportSettings.advertisedInitialMaxStreamsUni
      let window := limit / m.streamLimitWindowingFraction
      let openable := openableRemoteUnidirectionalStreams m
      let credit := limit - openable - size'
      let maxStreams := usub64 m.maxRemoteUnidirectionalStreamId
        m.initialRemoteUnidirectionalStreamId / kStreamIncrement
      (credit ≥ window →
        ∃ m', removeClosedStream m streamId = .ok m' ∧
          m'.remoteUnidirectionalStreamLimitUpdate = some (maxStreams + credit) ∧
          m'.openUnidirectionalPeerStreams =
            m.openUnidirectionalPeerStreams.filter (· ≠ streamId) ∧
          (0 < credit → m'.maxRemoteUnidirectionalStreamId =
            (maxStreams + credit) * kStreamIncrement +
              m.initialRemoteUnidirectionalStreamId)) ∧
      (credit < window →
        ∃ m', removeClosedStream m streamId = .ok m' ∧
          m'.remoteUnidirectionalStreamLimitUpdate =
            m.remoteUnidirectionalStreamLimitUpdate ∧
          m'.openUnidirectionalPeerStreams =
            m.openUnidirectionalPeerStreams.filter (· ≠ streamId) ∧
          m'.maxRemoteUnidirectionalStreamId = m.maxRemoteUnidirectionalStreamId)) ∧
    (c6Scenario.map (fun p => p.1)) = .ok (some 125, none) := by
  refine ⟨?_, ?_, ?_⟩
  · intro m streamId hnode hparity huni hin hprio hlimit64 hnowrap hinit hmax64 hnolimit

    intro size' limit window openable credit maxStreams
    have hcredit : usub64 (usub64 limit openable) size' = credit := by
      rw [usub64_eq limit openable (by omega) hlimit64,
          usub64_eq (limit - openable) size' (by omega) (by omega)]
    have esize : (List.filter (fun x => decide (x ≠ streamId))
        m.openBidirectionalPeerStreams).length = size' := rfl
    have elimit : m.transportSettings.advertisedInitialMaxStreamsBidi = limit := rfl
    have eopen : usub64 m.maxRemoteBidirectionalStreamId
        m.nextAcceptablePeerBidirectionalStreamId / kStreamIncrement = openable := rfl
    have emaxs : usub64 m.maxRemoteBidirectionalStreamId
        m.initialRemoteBidirectionalStreamId / kStreamIncrement = maxStreams := rfl
    unfold removeClosedStream
    dsimp only
    simp only [hin, hprio, Bool.not_true, Bool.false_eq_true, reduceIte]
    have hremote : isRemoteStream m.nodeType streamId = true := by
      rw [hnode]; simpa [isRemoteStream] using hparity
    simp only [hnode] at hremote ⊢
    simp only [hremote, huni, Bool.false_eq_true, reduceIte, if_true, if_false]
    simp only [openableRemoteBidirectionalStreams]
    simp only [esize, elimit, eopen, emaxs]
    have ewindow : limit / m.streamLimitWindowingFraction = window := rfl
    have eopen0 : openableRemoteBidirectionalStreams m = openable := rfl
    have ecredit : limit - openable - size' = credit := rfl
    simp only [ewindow, hcredit]
    constructor
    · intro hge
      rw [if_pos hge]
      unfold setMaxRemoteBidirectionalStreams setMaxRemoteBidirectionalStreamsInternal
      rw [if_neg (by
        push_neg
        simpa only [eopen0, esize, elimit, emaxs, ecredit] using hnolimit)]
      simp only [Bool.false_or, decide_eq_true_eq]
      by_cases hbump : (maxStreams + credit) *
          kStreamIncrement + m.initialRemoteBidirectionalStreamId >
          m.maxRemoteBidirectionalStreamId
      · rw [if_pos hbump]
        simp only [Bind.bind, Except.bind]
        refine ⟨_, rfl, ?_, ?_, ?_⟩
        · rw [(updateAppIdleState_fields _).1]
        · rw [(updateAppIdleState_fields _).2.2.1]
        · intro _
          rw [(updateAppIdleState_fields _).2.2.2.2.1]
      · rw [if_neg hbump]
        simp only [Bind.bind, Except.bind]
        refine ⟨_, rfl, ?_, ?_, ?_⟩
        · rw [(updateAppIdleState_fields _).1]
        · rw [(updateAppIdleState_fields _).2.2.1]
        · intro hpos
          exfalso
          rw [← emaxs, usub64_eq _ _ hinit hmax64] at hbump
          have hdm := Nat.div_add_mod
            (m.maxRemoteBidirectionalStreamId - m.initialRemoteBidirectionalStreamId) 4
          simp only [kStreamIncrement_eq] at hbump
          omega
    · intro hlt
      rw [if_neg (by omega)]
      refine ⟨_, rfl, ?_, ?_, ?_⟩
      · rw [(updateAppIdleState_fields _).1]
      · rw [(updateAppIdleState_fields _).2.2.1]
      · rw [(updateAppIdleState_fields _).2.2.2.2.1]
  · intro m streamId hnode hparity huni hin hprio hlimit64 hnowrap hinit hmax64 hnolimit

    intro size' limit window openable credit maxStreams
    have hcredit : usub64 (usub64 limit openable) size' = credit := by
      rw [usub64_eq limit openable (by omega) hlimit64,
          usub64_eq (limit - openable) size' (by omega) (by omega)]
    have esize : (List.filter (fun x => decide (x ≠ streamId))
        m.openUnidirectionalPeerStreams).length = size' := rfl
    have elimit : m.transportSettings.advertisedInitialMaxStreamsUni = limit := rfl
    have eopen : usub64 m.maxRemoteUnidirectionalStreamId
        m.nextAcceptablePeerUnidirectionalStreamId / kStreamIncrement = openable := rfl
    have emaxs : usub64 m.maxRemoteUnidirectionalStreamId
        m.initialRemoteUnidirectionalStreamId / kStreamIncrement = maxStreams := rfl
    unfold removeClosedStream
    dsimp only
    simp only [hin, hprio, Bool.not_true, Bool.false_eq_true, reduceIte]
    have hremote : isRemoteStream m.nodeType streamId = true := by
      rw [hnode]; simpa [isRemoteStream] using hparity
    simp only [hnode] at hremote ⊢
    simp only [hremote, huni, Bool.false_eq_true, reduceIte, if_true, if_false]
    simp only [openableRemoteUnidirectionalStreams]
    simp only [esize, elimit, eopen, emaxs]
    have ewindow : limit / m.streamLimitWindowingFraction = window := rfl
    have eopen0 : openableRemoteUnidirectionalStreams m = openable := rfl
    have ecredit : limit - openable - size' = credit := rfl
    simp only [ewindow, hcredit]
    constructor
    · intro hge
      rw [if_pos hge]
      unfold setMaxRemoteUnidirectionalStreams setMaxRemoteUnidirectionalStreamsInternal
      rw [if_neg (by
        push_neg
        simpa only [eopen0, esize, elimit, emaxs, ecredit] using hnolimit)]
      simp only [Bool.false_or, decide_eq_true_eq]
      by_cases hbump : (maxStreams + credit) *
          kStreamIncrement + m.initialRemoteUnidirectionalStreamId >
          m.maxRemoteUnidirectionalStreamId
      · rw [if_pos hbump]
        simp only [Bind.bind, Except.bind]
        refine ⟨_, rfl, ?_, ?_, ?_⟩
        · rw [(updateAppIdleState_fields _).2.1]
        · rw [(updateAppIdleState_fields _).2.2.2.1]
        · intro _
          rw [(updateAppIdleState_fields _).2.2.2.2.2]
      · rw [if_neg hbump]
        simp only [Bind.bind, Except.bind]
        refine ⟨_, rfl, ?_, ?_, ?_⟩
        · rw [(updateAppIdleState_fields _).2.1]
        · rw [(updateAppIdleState_fields _).2.2.2.1]
        · intro hpos
          exfalso
          rw [← emaxs, usub64_eq _ _ hinit hmax64] at hbump
          have hdm := Nat.div_add_mod
            (m.maxRemoteUnidirectionalStreamId - m.initialRemoteUnidirectionalStreamId) 4
          simp only [kStreamIncrement_eq] at hbump
          omega
    · intro hlt
      rw [if_neg (by omega)]
      refine ⟨_, rfl, ?_, ?_, ?_⟩
      · rw [(updateAppIdleState_fields _).2.1]
      · rw [(updateAppIdleState_fields _).2.2.2.1]
      · rw [(updateAppIdleState_fields _).2.2.2.2.2]
  · decide

/-- Witness for C6, exercising both directions: on `c6WitnessMgr` (bidi
limit 4, window 1, 3 open peer streams after erasing stream 0, so credit
1) removing stream 0 sets the bidirectional MAX_STREAMS update channel to
5; on `c6UniWitnessMgr` (the unidirectional mirror) removing stream 2
sets the unidirectional channel to 5. -/
theorem removeClosedStream_C6_witness :
    (∃ m', removeClosedStream c6WitnessMgr 0 = .ok m' ∧
      m'.remoteBidirectionalStreamLimitUpdate = some 5) ∧
    (∃ m', removeClosedStream c6UniWitnessMgr 2 = .ok m' ∧
      m'.remoteUnidirectionalStreamLimitUpdate = some 5) := by
  constructor
  · obtain ⟨m', hok, hupd, -, -⟩ :=
      (removeClosedStream_C6.1 c6WitnessMgr 0 rfl (by decide) (by decide) (by decide)
        (by decide) (by decide) (by decide) (by decide) (by decide) (by decide)).1
        (by decide)
    exact ⟨m', hok, hupd.trans (by decide)⟩
  · obtain ⟨m', hok, hupd, -, -⟩ :=
      (removeClosedStream_C6.2.1 c6UniWitnessMgr 2 rfl (by decide) (by decide) (by decide)
        (by decide) (by decide) (by decide) (by decide) (by decide) (by decide)).1
        (by decide)
    exact ⟨m', hok, hupd.trans (by decide)⟩

/-! ## C1 — the 1-RTT write cipher is installed at most once -/

theorem pcipApplyParams_preserves (conn : ServerConn) (cp : ClientTransportParameters)
    (conn' : ServerConn) (h : pcipApplyParams conn cp = .ok conn') :
    conn'.oneRttWriteCipher = conn.oneRttWriteCipher ∧
    conn'.sentHandshakeDone = conn.sentHandshakeDone := by
  unfold pcipApplyParams at h
  simp only [Bind.bind, Except.bind, Except.mapError, pure, Except.pure] at h
  repeat' split at h
  all_goals first
    | exact (Except.noConfusion h)
    | (injection h with h; subst h; exact ⟨rfl, rfl⟩)

theorem pcipPmtuAndCid_preserves (conn : ServerConn) (cp : ClientTransportParameters) :
    (pcipPmtuAndCid conn cp).2.oneRttWriteCipher = conn.oneRttWriteCipher ∧
    (pcipPmtuAndCid conn cp).2.sentHandshakeDone = conn.sentHandshakeDone := by
  unfold pcipPmtuAndCid
  dsimp only
  repeat' split
  all_goals exact ⟨rfl, rfl⟩

theorem applyD6DTimeouts_preserves (conn : ServerConn) (cp : ClientTransportParameters) :
    (applyD6DTimeouts conn cp).oneRttWriteCipher = conn.oneRttWriteCipher ∧
    (applyD6DTimeouts conn cp).sentHandshakeDone = conn.sentHandshakeDone := by
  unfold applyD6DTimeouts
  repeat' split
  all_goals exact ⟨rfl, rfl⟩

theorem pcipD6D_preserves (conn : ServerConn) (cp : ClientTransportParameters)
    (now maxUdp : Nat) :
    (pcipD6D conn cp now maxUdp).oneRttWriteCipher = conn.oneRttWriteCipher ∧
    (pcipD6D conn cp now maxUdp).sentHandshakeDone = conn.sentHandshakeDone := by
  unfold pcipD6D
  repeat' split
  all_goals first
    | exact ⟨rfl, rfl⟩
    | exact applyD6DTimeouts_preserves _ _

theorem processClientInitialParams_preserves (conn : ServerConn)
    (cp : ClientTransportParameters) (now : Nat) (conn' : ServerConn)
    (h : processClientInitialParams conn cp now = .ok conn') :
    conn'.oneRttWriteCipher = conn.oneRttWriteCipher ∧
    conn'.sentHandshakeDone = conn.sentHandshakeDone := by
  unfold processClientInitialParams at h
  simp only [Bind.bind, Except.bind, pure, Except.pure] at h
  split at h
  · exact (Except.noConfusion h)
  · split at h
    · exact (Except.noConfusion h)
    · rename_i c2 happly
      injection h with h
      subst h
      have h1 := pcipApplyParams_preserves conn cp c2 happly
      have h2 := pcipPmtuAndCid_preserves c2 cp
      have h3 := pcipD6D_preserves (pcipPmtuAndCid c2 cp).2 cp now (pcipPmtuAndCid c2 cp).1
      exact ⟨h3.1.trans (h2.1.trans h1.1), h3.2.trans (h2.2.trans h1.2)⟩

theorem uhsInstallEarlyCiphers_preserves (conn : ServerConn) (hs : HandshakeLayerSnapshot) :
    (uhsInstallEarlyCiphers conn hs).oneRttWriteCipher = conn.oneRttWriteCipher := by
  unfold uhsInstallEarlyCiphers
  dsimp only
  repeat' split
  all_goals rfl

theorem uhsWriteCipherBlock_ok_write (conn : ServerConn) (hs : HandshakeLayerSnapshot)
    (now : Nat) (conn' : ServerConn) (hw : hs.oneRttWriteCipher = true)
    (h : uhsWriteCipherBlock conn hs now = .ok conn') :
    conn'.oneRttWriteCipher = true := by
  unfold uhsWriteCipherBlock at h
  simp only [hw, reduceIte] at h
  split at h
  · exact (Except.noConfusion h)
  · split at h
    · exact (Except.noConfusion h)
    · rename_i cp hcp
      exact (processClientInitialParams_preserves _ cp now conn' h).1.trans rfl

theorem uhsReadCipherBlock_preserves (conn : ServerConn) (hs : HandshakeLayerSnapshot) :
    (uhsReadCipherBlock conn hs).oneRttWriteCipher = conn.oneRttWriteCipher := by
  unfold uhsReadCipherBlock
  split
  all_goals rfl

theorem uhsHandshakeCipherBlock_preserves (conn : ServerConn) (hs : HandshakeLayerSnapshot)
    (conn' : ServerConn) (h : uhsHandshakeCipherBlock conn hs = .ok conn') :
    conn'.oneRttWriteCipher = conn.oneRttWriteCipher := by
  unfold uhsHandshakeCipherBlock at h
  repeat' split at h
  all_goals first
    | exact (Except.noConfusion h)
    | (injection h with h; subst h; rfl)

theorem uhsDoneBlock_preserves (conn : ServerConn) (hs : HandshakeLayerSnapshot)
    (conn' : ServerConn) (h : uhsDoneBlock conn hs = .ok conn') :
    conn'.oneRttWriteCipher = conn.oneRttWriteCipher := by
  unfold uhsDoneBlock at h
  repeat' split at h
  all_goals first
    | exact (Except.noConfusion h)
    | (injection h with h; subst h; rfl)

theorem updateHandshakeState_ok_write (conn : ServerConn) (hs : HandshakeLayerSnapshot)
    (now : Nat) (conn' : ServerConn) (hw : hs.oneRttWriteCipher = true)
    (h : updateHandshakeState conn hs now = .ok conn') :
    conn'.oneRttWriteCipher = true := by
  unfold updateHandshakeState at h
  simp only [Bind.bind, Except.bind] at h
  split at h
  · exact (Except.noConfusion h)
  · rename_i c2 hwrite
    split at h
    · exact (Except.noConfusion h)
    · rename_i c3 hhs
      have e1 := uhsWriteCipherBlock_ok_write _ hs now c2 hw hwrite
      have e2 := uhsReadCipherBlock_preserves c2 hs
      have e3 := uhsHandshakeCipherBlock_preserves _ hs c3 hhs
      have e4 := uhsDoneBlock_preserves c3 hs conn' h
      rw [e4, e3, e2, e1]

/-- Claim C1.  `updateHandshakeState` installs the 1-RTT write cipher at
most once: (i) if the handshake driver yields a 1-RTT write cipher while
`conn.oneRttWriteCipher` is already installed, the call raises the fatal
CRYPTO_ERROR "Duplicate 1-rtt write cipher" (which the connection boundary
turns into closing the connection with CRYPTO_ERROR); (ii) across two
invocations, a first call that is handed the write cipher and succeeds
leaves it installed, so a second call that is handed a write cipher again
raises the same CRYPTO_ERROR. -/
theorem updateHandshakeState_C1 :
    (∀ (conn : ServerConn) (hs : HandshakeLayerSnapshot) (now : Nat),
      conn.oneRttWriteCipher = true → hs.oneRttWriteCipher = true →
      updateHandshakeState conn hs now =
        .error (.err ⟨.CRYPTO_ERROR, "Duplicate 1-rtt write cipher"⟩)) ∧
    (∀ (conn : ServerConn) (hs1 hs2 : HandshakeLayerSnapshot) (now1 now2 : Nat)
        (conn1 : ServerConn),
      hs1.oneRttWriteCipher = true →
      updateHandshakeState conn hs1 now1 = .ok conn1 →
      hs2.oneRttWriteCipher = true →
      updateHandshakeState conn1 hs2 now2 =
        .error (.err ⟨.CRYPTO_ERROR, "Duplicate 1-rtt write cipher"⟩)) := by
  have part1 : ∀ (conn : ServerConn) (hs : HandshakeLayerSnapshot) (now : Nat),
      conn.oneRttWriteCipher = true → hs.oneRttWriteCipher = true →
      updateHandshakeState conn hs now =
        .error (.err ⟨.CRYPTO_ERROR, "Duplicate 1-rtt write cipher"⟩) := by
    intro conn hs now hc hw
    have hw2 : uhsWriteCipherBlock (uhsInstallEarlyCiphers conn hs) hs now =
        .error (.err ⟨.CRYPTO_ERROR, "Duplicate 1-rtt write cipher"⟩) := by
      unfold uhsWriteCipherBlock
      simp only [hw, reduceIte]
      rw [if_pos ((uhsInstallEarlyCiphers_preserves conn hs).trans hc)]
    unfold updateHandshakeState
    simp only [Bind.bind, Except.bind, hw2]
  exact ⟨part1, fun conn hs1 hs2 now1 now2 conn1 hw1 hok hw2 =>
    part1 conn1 hs2 now2 (updateHandshakeState_ok_write conn hs1 now1 conn1 hw1 hok) hw2⟩

/-- Witness for C1: concrete runs on `testConn` — a call on a state that
already has the write cipher errors immediately, and a successful install
(on `testConn`, yielding `c1AfterFirst`) followed by a second yielded
write cipher errors. -/
theorem updateHandshakeState_C1_witness :
    updateHandshakeState { testConn with oneRttWriteCipher := true } c1Snapshot 0 =
      .error (.err ⟨.CRYPTO_ERROR, "Duplicate 1-rtt write cipher"⟩) ∧
    updateHandshakeState testConn c1Snapshot 0 = .ok c1AfterFirst ∧
    updateHandshakeState c1AfterFirst c1Snapshot 0 =
      .error (.err ⟨.CRYPTO_ERROR, "Duplicate 1-rtt write cipher"⟩) := by
  refine ⟨updateHandshakeState_C1.1 _ c1Snapshot 0 rfl rfl, ?_, ?_⟩
  · rfl
  · exact updateHandshakeState_C1.2 testConn c1Snapshot c1Snapshot 0 0 c1AfterFirst
      rfl rfl rfl

/-! ## C2 — peer-address guard and the migration cap -/

theorem onConnectionMigration_maxed (conn : ServerConn) (newPeer : SocketAddress)
    (isIntentional : Bool) (pathData now : Nat)
    (h : conn.migrationState.numMigrations ≥ kMaxNumMigrationsAllowed) :
    onConnectionMigration conn newPeer isIntentional pathData now =
      .error (.err ⟨.INVALID_MIGRATION, "Too many migrations"⟩) := by
  unfold onConnectionMigration
  simp only [Bind.bind, Except.bind]
  rw [if_pos h]

theorem onConnectionMigration_ok (conn : ServerConn) (newPeer : SocketAddress)
    (isIntentional : Bool) (pathData now : Nat) (conn' : ServerConn)
    (h : onConnectionMigration conn newPeer isIntentional pathData now = .ok conn') :
    conn'.peerAddress = newPeer ∧
    conn'.migrationState.numMigrations = conn.migrationState.numMigrations + 1 := by
  unfold onConnectionMigration recoverOrResetCongestionAndRttState
    resetCongestionAndRttState moveCurrentCongestionAndRttState at h
  simp only [Bind.bind, Except.bind, pure, Except.pure] at h
  repeat' split at h
  all_goals first
    | exact (Except.noConfusion h)
    | (injection h with h; subst h; exact ⟨rfl, rfl⟩)

theorem migrateSeq_count (steps : List (SocketAddress × Bool × Nat × Nat)) :
    ∀ (conn conn' : ServerConn), migrateSeq conn steps = .ok conn' →
    conn'.migrationState.numMigrations =
      conn.migrationState.numMigrations + steps.length := by
  induction steps with
  | nil =>
    intro conn conn' h
    injection h with h
    subst h
    rfl
  | cons s steps ih =>
    intro conn conn' h
    have hcons : migrateSeq conn (s :: steps) =
        (onConnectionMigration conn s.1 s.2.1 s.2.2.1 s.2.2.2).bind
          (fun c => migrateSeq c steps) := by
      simp [migrateSeq, List.foldlM, Bind.bind]
    rw [hcons] at h
    cases hm : onConnectionMigration conn s.1 s.2.1 s.2.2.1 s.2.2.2 with
    | error e => rw [hm] at h; exact (Except.noConfusion h)
    | ok c =>
      rw [hm] at h
      simp only [Except.bind] at h
      have h1 := (onConnectionMigration_ok conn s.1 s.2.1 s.2.2.1 s.2.2.2 c hm).2
      have h2 := ih c conn' h
      rw [h2, h1, List.length_cons]
      omega

/-- C2: during Open-state packet processing, a packet from a peer address
different from the current one raises INVALID_MIGRATION whenever its
encryption level is not AppData or migration is administratively disabled,
and the passing check never changes the connection; `onConnectionMigration`
raises INVALID_MIGRATION ("Too many migrations") whenever `numMigrations`
has already reached `kMaxNumMigrationsAllowed`, so after
`kMaxNumMigrationsAllowed` successful migrations from a fresh connection the
next one fails. -/
theorem migration_C2 :
    (∀ (conn : ServerConn) (readPeer : SocketAddress) (lvl : EncryptionLevel),
      conn.peerAddress ≠ readPeer →
      (lvl ≠ EncryptionLevel.AppData ∨ conn.transportSettings.disableMigration = true) →
      ∃ msg, onReceivedPacketPeerAddressCheck conn readPeer lvl =
        .error (.err ⟨.INVALID_MIGRATION, msg⟩)) ∧
    (∀ (conn : ServerConn) (readPeer : SocketAddress) (lvl : EncryptionLevel)
        (conn' : ServerConn),
      onReceivedPacketPeerAddressCheck conn readPeer lvl = .ok conn' → conn' = conn) ∧
    (∀ (conn : ServerConn) (newPeer : SocketAddress) (isIntentional : Bool)
        (pathData now : Nat),
      conn.migrationState.numMigrations ≥ kMaxNumMigrationsAllowed →
      onConnectionMigration conn newPeer isIntentional pathData now =
        .error (.err ⟨.INVALID_MIGRATION, "Too many migrations"⟩)) ∧
    (∀ (conn : ServerConn) (steps : List (SocketAddress × Bool × Nat × Nat))
        (s : SocketAddress × Bool × Nat × Nat) (conn' : ServerConn),
      conn.migrationState.numMigrations = 0 →
      steps.length = kMaxNumMigrationsAllowed →
      migrateSeq conn steps = .ok conn' →
      onConnectionMigration conn' s.1 s.2.1 s.2.2.1 s.2.2.2 =
        .error (.err ⟨.INVALID_MIGRATION, "Too many migrations"⟩)) := by
  refine ⟨?_, ?_, ?_, ?_⟩
  · intro conn readPeer lvl hne hcase
    unfold onReceivedPacketPeerAddressCheck
    simp only [Bind.bind, Except.bind]
    rw [if_pos hne]
    rcases hcase with hlvl | hdis
    · exact ⟨"Migration not allowed during handshake", by rw [if_pos hlvl]⟩
    · by_cases hlvl : lvl ≠ EncryptionLevel.AppData
      · exact ⟨"Migration not allowed during handshake", by rw [if_pos hlvl]⟩
      · refine ⟨"Migration disabled", ?_⟩
        rw [if_neg hlvl]
        simp only [hdis, reduceIte]
        rfl
  · intro conn readPeer lvl conn' h
    unfold onReceivedPacketPeerAddressCheck at h
    simp only [Bind.bind, Except.bind, pure, Except.pure] at h
    repeat' split at h
    all_goals first
      | exact (Except.noConfusion h)
      | (injection h with h; exact h.symm)
  · exact onConnectionMigration_maxed
  · intro conn steps s conn' h0 hlen hseq
    apply onConnectionMigration_maxed
    rw [migrateSeq_count steps conn conn' hseq, h0, hlen]
    omega


theorem migration_C2_witness :
    (∃ msg, onReceivedPacketPeerAddressCheck testConn { isV4 := true, ip := 77777, port := 1 }
        EncryptionLevel.Initial = .error (.err ⟨.INVALID_MIGRATION, msg⟩)) ∧
    onConnectionMigration c2AfterSix { isV4 := true, ip := 9000, port := 1 } false 99 5 =
      .error (.err ⟨.INVALID_MIGRATION, "Too many migrations"⟩) :=
  ⟨migration_C2.1 testConn { isV4 := true, ip := 77777, port := 1 } EncryptionLevel.Initial
      (by decide) (Or.inl (by decide)),
   migration_C2.2.2.2 testConn c2Steps ({ isV4 := true, ip := 9000, port := 1 }, false, 99, 5)
      c2AfterSix rfl rfl rfl⟩

/-! ## C8 — self connection-id allocation and the rejection retry limit -/

theorem connIdEncodeLoopGo_le (encode : Nat → Except Unit Nat)
    (rejector : Option (Nat → Bool)) :
    ∀ (fuel : Nat) (ec : Except Unit Nat) (et : Nat), et < kConnIdEncodingRetryLimit →
      (connIdEncodeLoop.go encode rejector ec et fuel).2 ≤ kConnIdEncodingRetryLimit := by
  intro fuel
  induction fuel with
  | zero => intro ec et h; exact Nat.le_of_lt h
  | succ n ih =>
      intro ec et h
      unfold connIdEncodeLoop.go
      split
      · split
        · split
          · exact ih _ _ (by assumption)
          · exact h
        · exact Nat.le_of_lt h
      · exact Nat.le_of_lt h

/-- C8 counterexample: with an always-succeeding encoder and an
always-rejecting rejector, `createAndAddNewSelfConnId` does NOT report
failure after exhausting the 16-encoding retry limit — it installs the
final rejected id (here id 15, sequence 0, token 115) into
`selfConnectionIds`, contradicting the claim that "after exhausting the
retry limit no self connection ID is installed and the allocation reports
failure". -/
theorem createAndAddNewSelfConnId_C8_counterexample :
    (createAndAddNewSelfConnId ⟨0, []⟩ (fun i => .ok i) (some (fun _ => true))
        (fun c => c + 100)).1 = some ⟨15, 0, 115⟩ ∧
    (createAndAddNewSelfConnId ⟨0, []⟩ (fun i => .ok i) (some (fun _ => true))
        (fun c => c + 100)).2.selfConnectionIds = [⟨15, 0, 115⟩] := by
  decide

/-- C8 (amended): the retry loop performs at most `kConnIdEncodingRetryLimit = 16`
encodings (the returned rejection counter never exceeds 16, and on an
always-rejecting rejector with a succeeding encoder it stops at exactly 16
encodings, ending on the 16th encoded id); the allocation reports failure
(returning `none` and leaving the state untouched) exactly when the encoder
itself errored; whenever the loop ends with an encoded id — even one the
rejector rejected after the limit was exhausted — that id is installed with
the next sequence number and its stateless-reset token. -/
theorem createAndAddNewSelfConnId_C8_amended (st : SelfConnIdState)
    (encode : Nat → Except Unit Nat) (rejector : Option (Nat → Bool))
    (genToken : Nat → Nat) :
    (connIdEncodeLoop encode rejector).2 ≤ kConnIdEncodingRetryLimit ∧
    (∀ f : Nat → Nat,
      connIdEncodeLoop (fun i => .ok (f i)) (some (fun _ => true)) =
        (.ok (f 15), kConnIdEncodingRetryLimit)) ∧
    ((createAndAddNewSelfConnId st encode rejector genToken).1 = none ↔
      ∃ e, (connIdEncodeLoop encode rejector).1 = .error e) ∧
    ((createAndAddNewSelfConnId st encode rejector genToken).1 = none →
      (createAndAddNewSelfConnId st encode rejector genToken).2 = st) ∧
    (∀ cid, (connIdEncodeLoop encode rejector).1 = .ok cid →
      (createAndAddNewSelfConnId st encode rejector genToken).1 =
        some ⟨cid, st.nextSelfConnectionIdSequence, genToken cid⟩ ∧
      (createAndAddNewSelfConnId st encode rejector genToken).2.selfConnectionIds =
        st.selfConnectionIds ++ [⟨cid, st.nextSelfConnectionIdSequence, genToken cid⟩] ∧
      (createAndAddNewSelfConnId st encode rejector
          genToken).2.nextSelfConnectionIdSequence =
        st.nextSelfConnectionIdSequence + 1) := by
  refine ⟨connIdEncodeLoopGo_le encode rejector kConnIdEncodingRetryLimit _ 0 (by decide),
    fun f => rfl, ?_, ?_, ?_⟩
  · unfold createAndAddNewSelfConnId
    dsimp only
    cases h : (connIdEncodeLoop encode rejector).1 with
    | error e => simp [h]
    | ok cid => simp [h]
  · unfold createAndAddNewSelfConnId
    dsimp only
    cases h : (connIdEncodeLoop encode rejector).1 with
    | error e => intro _; rfl
    | ok cid => intro hc; exact absurd hc (by simp)
  · intro cid h
    unfold createAndAddNewSelfConnId
    dsimp only
    rw [h]
    exact ⟨rfl, rfl, rfl⟩

theorem createAndAddNewSelfConnId_C8_witness :
    (createAndAddNewSelfConnId ⟨5, []⟩ (fun i => .ok (i + 7)) none (fun c => c * 2)).1 =
      some ⟨7, 5, 14⟩ :=
  ((createAndAddNewSelfConnId_C8_amended ⟨5, []⟩ (fun i => .ok (i + 7)) none
      (fun c => c * 2)).2.2.2.2 7 (by decide)).1

/-! ## C9 — transport-knob parsing -/

theorem knobLe_trans (a b c : Nat × Nat) (hab : knobLe a b = true)
    (hbc : knobLe b c = true) : knobLe a c = true := by
  simp only [knobLe, Bool.or_eq_true, Bool.and_eq_true, decide_eq_true_eq,
    beq_iff_eq] at *
  omega

theorem knobLe_total (a b : Nat × Nat) : (knobLe a b || knobLe b a) = true := by
  simp only [knobLe, Bool.or_eq_true, Bool.and_eq_true, decide_eq_true_eq,
    beq_iff_eq]
  omega

theorem parseKnobsGo_append_none (pre post : List (Nat × FollyDynamic))
    (pid : Nat) (v : FollyDynamic) (h : parseKnobEntry pid v = none) :
    parseKnobsGo (pre ++ (pid, v) :: post) = none := by
  induction pre with
  | nil => simp [parseKnobsGo, h]
  | cons e rest ih =>
      obtain ⟨a, b⟩ := e
      simp only [List.cons_append, parseKnobsGo, ih]
      cases hpe : parseKnobEntry a b <;> simp [ih]

/-- C9: an RTT-factor knob (STARTUP_RTT_FACTOR or DEFAULT_RTT_FACTOR) whose
string value splits at the first slash into decimal strings for `num` and
`den` with 0 < num < 100 and 0 < den < 100 parses to the packed integer
num·100 + den; a string knob whose entry parser fails — in particular any
string knob with an id outside the four recognized ones, and any RTT-factor
knob whose parsed fraction is out of range — fails the whole parse, with no
partial output; and any successful parse output is pairwise sorted by the
(id, value) order `knobLe`. -/
theorem parseTransportKnobs_C9 :
    (∀ (pid : Nat) (s a b : List Char) (num den : Int),
      (pid = STARTUP_RTT_FACTOR_KNOB ∨ pid = DEFAULT_RTT_FACTOR_KNOB) →
      splitAtFirst '/' s = some (a, b) →
      tryToInt a = some num → tryToInt b = some den →
      0 < num → num < 100 → 0 < den → den < 100 →
      parseTransportKnobs [(pid, .str s)] =
        some [(pid, (num * 100 + den).toNat)]) ∧
    (∀ (pre post : List (Nat × FollyDynamic)) (pid : Nat) (v : FollyDynamic),
      parseKnobEntry pid v = none →
      parseTransportKnobs (pre ++ (pid, v) :: post) = none) ∧
    (∀ (pid : Nat) (s : List Char),
      pid ≠ CC_ALGORITHM_KNOB → pid ≠ STARTUP_RTT_FACTOR_KNOB →
      pid ≠ AUTO_BACKGROUND_MODE_KNOB → pid ≠ DEFAULT_RTT_FACTOR_KNOB →
      parseKnobEntry pid (.str s) = none) ∧
    (∀ (pid : Nat) (s a b : List Char) (num den : Int),
      (pid = STARTUP_RTT_FACTOR_KNOB ∨ pid = DEFAULT_RTT_FACTOR_KNOB) →
      splitAtFirst '/' s = some (a, b) →
      tryToInt a = some num → tryToInt b = some den →
      (num ≤ 0 ∨ 100 ≤ num ∨ den ≤ 0 ∨ 100 ≤ den) →
      parseKnobEntry pid (.str s) = none) ∧
    (∀ (params : List (Nat × FollyDynamic)) (out : List (Nat × Nat)),
      parseTransportKnobs params = some out →
      List.Pairwise (fun x y => knobLe x y = true) out) := by
  refine ⟨?_, ?_, ?_, ?_, ?_⟩
  · intro pid s a b num den hpid hsplit hnum hden h1 h2 h3 h4
    have hpidcc : ¬pid = CC_ALGORITHM_KNOB := by
      rcases hpid with h | h <;> subst h <;> decide
    unfold parseTransportKnobs parseKnobsGo parseKnobEntry
    dsimp only
    rw [if_neg hpidcc, if_pos hpid, hsplit]
    simp only [hnum, hden, Option.getD_some]
    rw [if_neg]
    · simp [parseKnobsGo, kKnobFractionMax]
    · simp only [Bool.or_eq_true, decide_eq_true_eq, ge_iff_le, kKnobFractionMax]
      omega
  · intro pre post pid v h
    unfold parseTransportKnobs
    rw [parseKnobsGo_append_none pre post pid v h]
    rfl
  · intro pid s h1 h2 h3 h4
    unfold parseKnobEntry
    dsimp only
    rw [if_neg h1, if_neg (not_or.mpr ⟨h2, h4⟩), if_neg h3]
  · intro pid s a b num den hpid hsplit hnum hden hrange
    have hpidcc : ¬pid = CC_ALGORITHM_KNOB := by
      rcases hpid with h | h <;> subst h <;> decide
    unfold parseKnobEntry
    dsimp only
    rw [if_neg hpidcc, if_pos hpid, hsplit]
    simp only [hnum, hden, Option.getD_some]
    rw [if_pos]
    simp only [Bool.or_eq_true, decide_eq_true_eq, ge_iff_le, kKnobFractionMax]
    omega
  · intro params out h
    unfold parseTransportKnobs at h
    obtain ⟨l, _, rfl⟩ := Option.map_eq_some'.mp h
    exact List.sorted_mergeSort knobLe_trans knobLe_total l

theorem parseTransportKnobs_C9_witness :
    parseTransportKnobs [(STARTUP_RTT_FACTOR_KNOB,
        FollyDynamic.str ['1', '/', '2'])] =
      some [(STARTUP_RTT_FACTOR_KNOB, 102)] :=
  parseTransportKnobs_C9.1 STARTUP_RTT_FACTOR_KNOB ['1', '/', '2'] ['1'] ['2']
    1 2 (Or.inl rfl) (by decide) (by decide) (by decide)
    (by decide) (by decide) (by decide) (by decide)
